import Mathlib

/-!
# Memory-mapped file regions (`src/mmap.h`, `src/mmap.cpp`)

A shallow embedding of `ghassanpl::basic_mmap`, `mmap_source` and `mmap_sink`.

The embedding follows the `_WIN32` configuration of the source: it is the only one that
compiles (the POSIX branch of `memory_map` uses `file_mapping_handle`, which that branch never
declares).  `size_t`, pointers and handles are 64-bit and modelled as `Nat` below `2^64`;
`int64_t` is modelled as `Int` with explicit wrapping conversions.

The operating system is a state machine (`OsState`): a file table, a table of open handles and
the list of mapped views.  Which handle or address the system hands out, and whether a call
fails, is decided by a `Kernel`, an arbitrary function of the current system state.
-/

namespace ghassanpl

/-! ## Machine integers -/

/-- Conversion of a mathematical integer to `size_t` (also used for pointers): modulo `2^64`. -/
def size_t (n : Int) : Nat := (n % 18446744073709551616).toNat

/-- Conversion to `int64_t`: two's complement, modulo `2^64`. -/
def int64_t (n : Int) : Int :=
  if n % 18446744073709551616 < 9223372036854775808 then n % 18446744073709551616
  else n % 18446744073709551616 - 18446744073709551616

/-- Conversion to the 32-bit `unsigned long` of the Windows ABI. -/
def ulong (n : Int) : Nat := (n % 4294967296).toNat

/-- Source constant `static constexpr size_t map_entire_file = 0;` -/
def map_entire_file : Nat := 0

/-- Source constant `invalid_handle = (file_handle_type)-1` with `file_handle_type = void*`. -/
def invalid_handle : Nat := 18446744073709551615

/-! ## `std::error_code` -/

/-- The two error categories the code uses. -/
inductive error_category where
  | generic
  | system
deriving DecidableEq, Repr

/-- A `std::error_code`: a value and its category. -/
structure error_code where
  value : Nat
  category : error_category
deriving DecidableEq, Repr

/-- The state after `error.clear()`: value `0` in the system category. -/
def error_code.clear : error_code := ⟨0, error_category.system⟩

/-- The `explicit operator bool` of `std::error_code`: the value is not zero. -/
def error_code.failed (e : error_code) : Bool := e.value != 0

/-- The two `std::errc` constants the code uses. -/
inductive errc where
  | invalid_argument
  | bad_file_descriptor
deriving DecidableEq, Repr

/-- The numeric value of an `errc` constant (`EINVAL = 22`, `EBADF = 9`). -/
def errc.value : errc → Nat
  | errc.invalid_argument => 22
  | errc.bad_file_descriptor => 9

/-- Library function `std::make_error_code(std::errc)`: the value in the generic category. -/
def make_error_code (e : errc) : error_code := ⟨e.value, error_category.generic⟩

/-! ## The operating system -/

/-- What an open handle refers to: a file, or a file-mapping object over a file (with the
size of the mapping object). -/
inductive Obj where
  | file (path : String)
  | mapping (path : String) (size : Nat)
deriving DecidableEq, Repr

/-- A mapped view: `length` bytes of the file `path` from file offset `offset`, visible at
addresses `base .. base + length - 1`. -/
structure View where
  base : Nat
  path : String
  offset : Nat
  length : Nat
deriving DecidableEq, Repr

/-- The address `addr` lies inside the view. -/
def View.covers (v : View) (addr : Nat) : Bool :=
  decide (v.base ≤ addr) && decide (addr < v.base + v.length)

/-- One call into the operating system, with its arguments and its result. -/
inductive Call where
  | file_size (path : String) (ok : Bool)
  | CreateFileW (path : String) (result : Nat)
  | CreateFileMappingW (hFile high low result : Nat)
  | MapViewOfFile (hMap high low bytes result : Nat)
  | UnmapViewOfFile (addr : Nat)
  | CloseHandle (h : Nat) (ok : Bool)
  | FlushViewOfFile (addr bytes : Nat) (ok : Bool)
  | FlushFileBuffers (h : Nat) (ok : Bool)
deriving DecidableEq, Repr

/-- The state of the operating system as the program can observe it. -/
structure OsState where
  files : List (String × List Nat)
  handles : List (Nat × Obj)
  views : List View
  last_error : Nat
  log : List Call
deriving DecidableEq, Repr

/-- A failure code as `GetLastError` reports it after a failed call.  It is never
`ERROR_SUCCESS`, so it is stored as its predecessor. -/
structure Failure where
  pred : Nat
deriving DecidableEq, Repr

/-- The code of a failure, always positive. -/
def Failure.code (f : Failure) : Nat := f.pred + 1

/-- The decisions of the operating system: the allocation granularity, which handle or base
address a call hands out, and whether a call fails.  Every decision may depend on the whole
current state, the call log included. -/
structure Kernel where
  dwAllocationGranularity : Nat
  stat : OsState → String → Option Failure
  file_handle : OsState → String → Except Failure Nat
  mapping_handle : OsState → Nat → Nat → Except Failure Nat
  view_base : OsState → Nat → Nat → Nat → Except Failure Nat
  flush_view : OsState → Nat → Nat → Option Failure
  flush_file : OsState → Nat → Option Failure

/-- Win32 error code `ERROR_FILE_NOT_FOUND` -/
def ERROR_FILE_NOT_FOUND : Nat := 2

/-- Win32 error code `ERROR_TOO_MANY_OPEN_FILES` -/
def ERROR_TOO_MANY_OPEN_FILES : Nat := 4

/-- Win32 error code `ERROR_INVALID_HANDLE` -/
def ERROR_INVALID_HANDLE : Nat := 6

/-- Win32 error code `ERROR_NOT_ENOUGH_MEMORY` -/
def ERROR_NOT_ENOUGH_MEMORY : Nat := 8

/-- The handles that are open. -/
def OsState.open_handles (os : OsState) : List Nat := os.handles.map Prod.fst

/-- The object an open handle refers to.  `NULL` and `INVALID_HANDLE_VALUE` never name one. -/
def OsState.object (os : OsState) (h : Nat) : Option Obj :=
  if h = 0 ∨ h = invalid_handle then none else os.handles.lookup h

/-- A handle value the system may hand out: not `NULL`, not `INVALID_HANDLE_VALUE`, a 64-bit
value, and not open already. -/
def OsState.fresh (os : OsState) (h : Nat) : Bool :=
  h != 0 && h != invalid_handle && decide (h < 18446744073709551616)
    && (os.handles.lookup h).isNone

/-- A place for a new view of `len` bytes: not `NULL`, inside the address space, and disjoint
from every mapped view (a view occupies at least one byte of address space). -/
def OsState.vacant (os : OsState) (base len : Nat) : Bool :=
  base != 0 && decide (base + max len 1 ≤ 18446744073709551616)
    && os.views.all (fun v =>
      decide (base + max len 1 ≤ v.base) || decide (v.base + max v.length 1 ≤ base))

/-- Record a call. -/
def OsState.record (os : OsState) (c : Call) : OsState := { os with log := os.log ++ [c] }

/-- Record a failed call and set the last-error value. -/
def OsState.fail (os : OsState) (code : Nat) (c : Call) : OsState :=
  { os with last_error := code, log := os.log ++ [c] }

/-- Win32 `GetLastError()` -/
def GetLastError (os : OsState) : Nat := os.last_error

/-- Library function `std::filesystem::file_size(path, error)`: the size, or `uintmax_t(-1)`
and an error. -/
def file_size (k : Kernel) (os : OsState) (path : String) : Nat × error_code × OsState :=
  match os.files.lookup path with
  | none =>
      (18446744073709551615, ⟨ERROR_FILE_NOT_FOUND, error_category.system⟩,
        os.record (Call.file_size path false))
  | some content =>
      match k.stat os path with
      | some f =>
          (18446744073709551615, ⟨f.code, error_category.system⟩,
            os.record (Call.file_size path false))
      | none =>
          (content.length % 18446744073709551616, error_code.clear,
            os.record (Call.file_size path true))

/-- Win32 `CreateFileW(path, access, share, 0, OPEN_EXISTING, FILE_ATTRIBUTE_NORMAL, 0)`: a fresh
file handle, or `INVALID_HANDLE_VALUE` with the last-error value set. -/
def CreateFileW (k : Kernel) (os : OsState) (path : String) : Nat × OsState :=
  match os.files.lookup path with
  | none => (invalid_handle, os.fail ERROR_FILE_NOT_FOUND (Call.CreateFileW path invalid_handle))
  | some _ =>
      match k.file_handle os path with
      | Except.error f => (invalid_handle, os.fail f.code (Call.CreateFileW path invalid_handle))
      | Except.ok h =>
          if os.fresh h then
            (h, { os with handles := (h, Obj.file path) :: os.handles,
                          log := os.log ++ [Call.CreateFileW path h] })
          else
            (invalid_handle,
              os.fail ERROR_TOO_MANY_OPEN_FILES (Call.CreateFileW path invalid_handle))

/-- Win32 `CreateFileMappingW(hFile, 0, protect, high, low, 0)`: a fresh handle to a mapping object
over the file, or `NULL` with the last-error value set.  A maximum size of zero stands for the
current size of the file. -/
def CreateFileMappingW (k : Kernel) (os : OsState) (hFile high low : Nat) : Nat × OsState :=
  match os.object hFile with
  | some (Obj.file path) =>
      match k.mapping_handle os hFile (high * 4294967296 + low) with
      | Except.error f => (0, os.fail f.code (Call.CreateFileMappingW hFile high low 0))
      | Except.ok m =>
          if os.fresh m then
            let size :=
              if high * 4294967296 + low = 0 then ((os.files.lookup path).getD []).length
              else high * 4294967296 + low
            (m, { os with handles := (m, Obj.mapping path size) :: os.handles,
                          log := os.log ++ [Call.CreateFileMappingW hFile high low m] })
          else
            (0, os.fail ERROR_TOO_MANY_OPEN_FILES (Call.CreateFileMappingW hFile high low 0))
  | _ => (0, os.fail ERROR_INVALID_HANDLE (Call.CreateFileMappingW hFile high low 0))

/-- Win32 `MapViewOfFile(hMap, access, high, low, bytes)`: the base address of a new view of the
mapping object from file offset `high:low`, or `NULL` with the last-error value set.  Zero
`bytes` stands for the rest of the mapping object. -/
def MapViewOfFile (k : Kernel) (os : OsState) (hMap high low bytes : Nat) : Nat × OsState :=
  match os.object hMap with
  | some (Obj.mapping path size) =>
      match k.view_base os hMap (high * 4294967296 + low) bytes with
      | Except.error f => (0, os.fail f.code (Call.MapViewOfFile hMap high low bytes 0))
      | Except.ok base =>
          let len := if bytes = 0 then size - (high * 4294967296 + low) else bytes
          if os.vacant base len then
            (base, { os with views := ⟨base, path, high * 4294967296 + low, len⟩ :: os.views,
                             log := os.log ++ [Call.MapViewOfFile hMap high low bytes base] })
          else
            (0, os.fail ERROR_NOT_ENOUGH_MEMORY (Call.MapViewOfFile hMap high low bytes 0))
  | _ => (0, os.fail ERROR_INVALID_HANDLE (Call.MapViewOfFile hMap high low bytes 0))

/-- Win32 `UnmapViewOfFile(addr)`: the view based at `addr` is removed. -/
def UnmapViewOfFile (os : OsState) (addr : Nat) : OsState :=
  { os with views := os.views.filter (fun v => v.base != addr),
            log := os.log ++ [Call.UnmapViewOfFile addr] }

/-- Win32 `CloseHandle(h)`: the handle is closed; fails on `NULL` and on a handle that is not
open. -/
def CloseHandle (os : OsState) (h : Nat) : Bool × OsState :=
  if (os.object h).isSome then
    (true, { os with handles := os.handles.filter (fun e => e.1 != h),
                     log := os.log ++ [Call.CloseHandle h true] })
  else
    (false, os.fail ERROR_INVALID_HANDLE (Call.CloseHandle h false))

/-- Win32 `FlushViewOfFile(addr, bytes)`: whether the flush succeeded. -/
def FlushViewOfFile (k : Kernel) (os : OsState) (addr bytes : Nat) : Bool × OsState :=
  match k.flush_view os addr bytes with
  | none => (true, os.record (Call.FlushViewOfFile addr bytes true))
  | some f => (false, os.fail f.code (Call.FlushViewOfFile addr bytes false))

/-- Win32 `FlushFileBuffers(h)`: whether the flush succeeded. -/
def FlushFileBuffers (k : Kernel) (os : OsState) (h : Nat) : Bool × OsState :=
  match k.flush_file os h with
  | none => (true, os.record (Call.FlushFileBuffers h true))
  | some f => (false, os.fail f.code (Call.FlushFileBuffers h false))

/-- The byte the process reads at address `addr`: the byte of the file behind the first view
that covers the address. -/
def OsState.read (os : OsState) (addr : Nat) : Option Nat :=
  match os.views.find? (fun v => v.covers addr) with
  | none => none
  | some v =>
      match os.files.lookup v.path with
      | none => none
      | some content => content[v.offset + (addr - v.base)]?

/-! ## Helpers of `mmap.cpp` -/

/-- Source function `last_error()`: the last-error value in the system category. -/
def last_error (os : OsState) : error_code := ⟨GetLastError os, error_category.system⟩

/-- Source function `page_size()`: the allocation granularity of the system. -/
def page_size (k : Kernel) : Nat := k.dwAllocationGranularity

/-- Source function `make_offset_page_aligned(offset)`: `offset / page_size_ * page_size_` in
`size_t`. -/
def make_offset_page_aligned (k : Kernel) (offset : Nat) : Nat :=
  (offset / page_size k * page_size k) % 18446744073709551616

/-- Source function `int64_high(n)`: `n >> 32`, returned as `unsigned long`. -/
def int64_high (n : Int) : Nat := ulong (n / 4294967296)

/-- Source function `int64_low(n)`: `n & 0xffffffff`, returned as `unsigned long`. -/
def int64_low (n : Int) : Nat := ulong (n % 4294967296)

/-! ## `basic_mmap` -/

/-- The data members of `basic_mmap`, with their default member initialisers. -/
structure basic_mmap where
  data_ : Nat := 0
  length_ : Nat := 0
  mapped_length_ : Nat := 0
  file_handle_ : Nat := invalid_handle
  file_mapping_handle_ : Nat := invalid_handle
deriving DecidableEq, Repr

/-- The default constructor `basic_mmap() = default`. -/
def basic_mmap.default : basic_mmap := {}

/-- Source function `file_handle()` -/
def basic_mmap.file_handle (r : basic_mmap) : Nat := r.file_handle_

/-- Source function `mapping_handle()` -/
def basic_mmap.mapping_handle (r : basic_mmap) : Nat :=
  if r.file_mapping_handle_ = invalid_handle then r.file_handle_ else r.file_mapping_handle_

/-- Source function `is_open()` -/
def basic_mmap.is_open (r : basic_mmap) : Bool := r.file_handle_ != invalid_handle

/-- Source function `is_mapped()` -/
def basic_mmap.is_mapped (r : basic_mmap) : Bool := r.file_mapping_handle_ != invalid_handle

/-- Source function `length()` -/
def basic_mmap.length (r : basic_mmap) : Nat := r.length_

/-- Source function `size()` -/
def basic_mmap.size (r : basic_mmap) : Nat := r.length

/-- Source function `empty()` -/
def basic_mmap.empty (r : basic_mmap) : Bool := r.length == 0

/-- Source function `mapped_length()` -/
def basic_mmap.mapped_length (r : basic_mmap) : Nat := r.mapped_length_

/-- Source function `mapping_offset()`: `mapped_length_ - length_` in `size_t`. -/
def basic_mmap.mapping_offset (r : basic_mmap) : Nat :=
  size_t ((r.mapped_length_ : Int) - (r.length_ : Int))

/-- Source function `data()` -/
def basic_mmap.data (r : basic_mmap) : Nat := r.data_

/-- Source function `get_mapping_start()`: null for a null `data()`, else
`data() - mapping_offset()`. -/
def basic_mmap.get_mapping_start (r : basic_mmap) : Nat :=
  if r.data = 0 then 0 else size_t ((r.data : Int) - (r.mapping_offset : Int))

/-- The address `operator[](i)` refers to: `data_ + i`. -/
def basic_mmap.element (r : basic_mmap) (i : Nat) : Nat :=
  size_t ((r.data_ : Int) + (i : Int))

/-- Source function `operator[](i)`: the byte at `data_[i]`, read through the views the system
has mapped. -/
def basic_mmap.index (os : OsState) (r : basic_mmap) (i : Nat) : Option Nat :=
  os.read (r.element i)

/-- The address the region would hand to `UnmapViewOfFile` is null or the base of a view that
is mapped: the region does not hold the address of a view that is gone. -/
def basic_mmap.holds_live_view (os : OsState) (r : basic_mmap) : Bool :=
  !(r.is_open && r.is_mapped) || r.get_mapping_start == 0
    || os.views.any (fun v => v.base == r.get_mapping_start)

/-- The struct `mmap_context` that `memory_map` returns. -/
structure mmap_context where
  data : Nat
  length : Int
  mapped_length : Int
  file_mapping_handle : Nat
deriving DecidableEq, Repr

/-- The value-initialised context of `return {};`: all members zero. -/
def mmap_context.zero : mmap_context := ⟨0, 0, 0, 0⟩

/-! ## `mmap_source` -/

/-- Source function `mmap_source::unmap()` -/
def mmap_source.unmap (os : OsState) (r : basic_mmap) : basic_mmap × OsState :=
  if !r.is_open then (r, os)
  else
    let os1 :=
      if r.is_mapped then
        (CloseHandle (UnmapViewOfFile os r.get_mapping_start) r.file_mapping_handle_).2
      else os
    let os2 := (CloseHandle os1 r.file_handle_).2
    ({ data_ := 0, length_ := 0, mapped_length_ := 0,
       file_handle_ := invalid_handle, file_mapping_handle_ := invalid_handle }, os2)

/-- The result of `open_file`: the returned handle, the error out-parameter, the system. -/
structure open_result where
  handle : Nat
  error : error_code
  os : OsState
deriving DecidableEq, Repr

/-- Source function `mmap_source::open_file(path, error)` -/
def mmap_source.open_file (k : Kernel) (os : OsState) (path : String) : open_result :=
  if path.isEmpty then
    ⟨invalid_handle, make_error_code errc.invalid_argument, os⟩
  else
    let r := CreateFileW k os path
    if r.1 = invalid_handle then ⟨r.1, last_error r.2, r.2⟩
    else ⟨r.1, error_code.clear, r.2⟩

/-- The result of `memory_map`: the returned context, the error out-parameter, the system. -/
structure memory_map_result where
  ctx : mmap_context
  error : error_code
  os : OsState
deriving DecidableEq, Repr

/-- Source function `mmap_source::memory_map(file_handle, offset, length, error)`; `error` is
the value of the out-parameter on entry. -/
def mmap_source.memory_map (k : Kernel) (os : OsState) (file_handle : Nat)
    (offset length : Int) (error : error_code) : memory_map_result :=
  let aligned_offset : Int := int64_t (make_offset_page_aligned k (size_t offset))
  let length_to_map : Int := int64_t (offset - aligned_offset + length)
  let max_file_size : Int := int64_t (offset + length)
  let m := CreateFileMappingW k os file_handle (int64_high max_file_size)
    (int64_low max_file_size)
  if m.1 = invalid_handle then ⟨mmap_context.zero, last_error m.2, m.2⟩
  else
    let v := MapViewOfFile k m.2 m.1 (int64_high aligned_offset) (int64_low aligned_offset)
      (size_t length_to_map)
    if v.1 = 0 then
      let os3 := (CloseHandle v.2 m.1).2
      ⟨mmap_context.zero, last_error os3, os3⟩
    else
      ⟨⟨size_t ((v.1 : Int) + offset - aligned_offset), length, length_to_map, m.1⟩,
        error, v.2⟩

/-- The result of `map`: the region afterwards, the error out-parameter, the system. -/
structure map_result where
  region : basic_mmap
  error : error_code
  os : OsState
deriving DecidableEq, Repr

/-- The length argument of the call to `memory_map` in `map`:
`length == map_entire_file ? (file_size - offset) : length`, in 64-bit unsigned arithmetic. -/
def memory_map_length (file_size offset length : Nat) : Nat :=
  if length = map_entire_file then size_t ((file_size : Int) - (offset : Int)) else length

/-- Source function `basic_mmap<mmap_source>::map(path, offset, length, error)` -/
def mmap_source.map (k : Kernel) (os : OsState) (r : basic_mmap) (path : String)
    (offset length : Nat) : map_result :=
  if path.isEmpty then ⟨r, make_error_code errc.invalid_argument, os⟩
  else
    let sz := file_size k os path
    if sz.2.1.failed then ⟨r, sz.2.1, sz.2.2⟩
    else
      let f := mmap_source.open_file k sz.2.2 path
      if f.error.failed then ⟨r, f.error, f.os⟩
      else if f.handle = invalid_handle then
        ⟨r, make_error_code errc.bad_file_descriptor, f.os⟩
      else if (offset + length) % 18446744073709551616 > sz.1 then
        ⟨r, make_error_code errc.invalid_argument, f.os⟩
      else
        let c := mmap_source.memory_map k f.os f.handle (int64_t offset)
          (int64_t (memory_map_length sz.1 offset length)) error_code.clear
        if !c.error.failed then
          let u := mmap_source.unmap c.os r
          ⟨{ file_handle_ := f.handle, data_ := c.ctx.data, length_ := size_t c.ctx.length,
             mapped_length_ := size_t c.ctx.mapped_length,
             file_mapping_handle_ := c.ctx.file_mapping_handle }, c.error, u.2⟩
        else ⟨r, c.error, c.os⟩

/-- The move constructor `basic_mmap(basic_mmap&& other)`: the new object and `other`
afterwards. -/
def basic_mmap.move_construct (other : basic_mmap) : basic_mmap × basic_mmap :=
  ({ data_ := other.data_, length_ := other.length_, mapped_length_ := other.mapped_length_,
     file_handle_ := other.file_handle_, file_mapping_handle_ := other.file_mapping_handle_ },
   { data_ := 0, length_ := 0, mapped_length_ := 0, file_handle_ := invalid_handle,
     file_mapping_handle_ := invalid_handle })

/-- The result of a move assignment: `*this` and `other` afterwards, and the system. -/
structure assign_result where
  self : basic_mmap
  other : basic_mmap
  os : OsState
deriving DecidableEq, Repr

/-- The move assignment `operator=(basic_mmap&& other)` of an `mmap_source`, for
`this != &other`: unmap, then take the members of `other` one by one. -/
def mmap_source.move_assign (os : OsState) (self other : basic_mmap) : assign_result :=
  let u := mmap_source.unmap os self
  ⟨{ data_ := other.data_, length_ := other.length_,
     mapped_length_ := other.mapped_length_, file_handle_ := other.file_handle_,
     file_mapping_handle_ := other.file_mapping_handle_ },
   { data_ := 0, length_ := 0, mapped_length_ := 0, file_handle_ := invalid_handle,
     file_mapping_handle_ := invalid_handle }, u.2⟩

/-- The move assignment for `this == &other`: the guard skips the body. -/
def mmap_source.move_assign_self (os : OsState) (self : basic_mmap) : basic_mmap × OsState :=
  (self, os)

/-- Source function `swap(other)` for `this != &other`: the five members are exchanged. -/
def basic_mmap.swap (self other : basic_mmap) : basic_mmap × basic_mmap :=
  ({ data_ := other.data_, file_handle_ := other.file_handle_,
     file_mapping_handle_ := other.file_mapping_handle_, length_ := other.length_,
     mapped_length_ := other.mapped_length_ },
   { data_ := self.data_, file_handle_ := self.file_handle_,
     file_mapping_handle_ := self.file_mapping_handle_, length_ := self.length_,
     mapped_length_ := self.mapped_length_ })

/-- The states of an `mmap_source` that default construction, `map`, `unmap`, move
construction, move assignment and `swap` produce, whatever the system does in between. -/
inductive Reachable : basic_mmap → Prop where
  | default : Reachable basic_mmap.default
  | map (k : Kernel) (os : OsState) (r : basic_mmap) (path : String) (offset length : Nat) :
      Reachable r → Reachable (mmap_source.map k os r path offset length).region
  | unmap (os : OsState) (r : basic_mmap) :
      Reachable r → Reachable (mmap_source.unmap os r).1
  | move_construct_new (b : basic_mmap) :
      Reachable b → Reachable (basic_mmap.move_construct b).1
  | move_construct_other (b : basic_mmap) :
      Reachable b → Reachable (basic_mmap.move_construct b).2
  | move_assign_self (os : OsState) (a b : basic_mmap) :
      Reachable a → Reachable b → Reachable (mmap_source.move_assign os a b).self
  | move_assign_other (os : OsState) (a b : basic_mmap) :
      Reachable a → Reachable b → Reachable (mmap_source.move_assign os a b).other
  | swap_self (a b : basic_mmap) :
      Reachable a → Reachable b → Reachable (basic_mmap.swap a b).1
  | swap_other (a b : basic_mmap) :
      Reachable a → Reachable b → Reachable (basic_mmap.swap a b).2

/-- The address a logged `MapViewOfFile` call returned is a user-mode address, below `2^63`.
The other calls return no address. -/
def Call.user_address : Call → Bool
  | Call.MapViewOfFile _ _ _ _ result => decide (result < 9223372036854775808)
  | _ => true

/-- Every address `MapViewOfFile` has returned so far is a user-mode address. -/
def OsState.user_addresses (os : OsState) : Bool := os.log.all Call.user_address

/-- The states of an `mmap_source` that default construction, `map`, `unmap`, move
construction, move assignment and `swap` produce on a system whose allocation granularity is a
positive 32-bit value (`unsigned long dwAllocationGranularity`) and whose views are based at
user-mode addresses, so that a pointer into a view never wraps around the address space. -/
inductive ReachableUser : basic_mmap → Prop where
  | default : ReachableUser basic_mmap.default
  | map (k : Kernel) (os : OsState) (r : basic_mmap) (path : String) (offset length : Nat) :
      ReachableUser r → 0 < k.dwAllocationGranularity →
      k.dwAllocationGranularity < 4294967296 →
      (mmap_source.map k os r path offset length).os.user_addresses = true →
      ReachableUser (mmap_source.map k os r path offset length).region
  | unmap (os : OsState) (r : basic_mmap) :
      ReachableUser r → ReachableUser (mmap_source.unmap os r).1
  | move_construct_new (b : basic_mmap) :
      ReachableUser b → ReachableUser (basic_mmap.move_construct b).1
  | move_construct_other (b : basic_mmap) :
      ReachableUser b → ReachableUser (basic_mmap.move_construct b).2
  | move_assign_self (os : OsState) (a b : basic_mmap) :
      ReachableUser a → ReachableUser b → ReachableUser (mmap_source.move_assign os a b).self
  | move_assign_other (os : OsState) (a b : basic_mmap) :
      ReachableUser a → ReachableUser b → ReachableUser (mmap_source.move_assign os a b).other
  | swap_self (a b : basic_mmap) :
      ReachableUser a → ReachableUser b → ReachableUser (basic_mmap.swap a b).1
  | swap_other (a b : basic_mmap) :
      ReachableUser a → ReachableUser b → ReachableUser (basic_mmap.swap a b).2

/-! ## `mmap_sink` -/

/-- Source function `mmap_sink::sync(error)` -/
def mmap_sink.sync (k : Kernel) (os : OsState) (r : basic_mmap) : error_code × OsState :=
  if !r.is_open then (make_error_code errc.bad_file_descriptor, os)
  else if r.data ≠ 0 then
    let v := FlushViewOfFile k os r.get_mapping_start r.mapped_length_
    if v.1 = false then (last_error v.2, v.2)
    else
      let b := FlushFileBuffers k v.2 r.file_handle_
      if b.1 = false then (last_error b.2, b.2)
      else
        let c := FlushFileBuffers k b.2 r.file_handle_
        if c.1 = false then (last_error c.2, c.2) else (error_code.clear, c.2)
  else
    let c := FlushFileBuffers k os r.file_handle_
    if c.1 = false then (last_error c.2, c.2) else (error_code.clear, c.2)

/-! ## A sample system -/

/-- A kernel that never fails: handles are handed out as 4, 8, 12, ... and views are placed at
successive multiples of the 64 KiB allocation granularity. -/
def sample_kernel : Kernel where
  dwAllocationGranularity := 65536
  stat := fun _ _ => none
  file_handle := fun os _ => Except.ok (4 * (os.log.length + 1))
  mapping_handle := fun os _ _ => Except.ok (4 * (os.log.length + 1))
  view_base := fun os _ _ _ => Except.ok (65536 * (os.log.length + 1))
  flush_view := fun _ _ _ => none
  flush_file := fun _ _ => none

/-- A system with one file, `f`, holding the twelve bytes of `Hello,mmap!!`, and nothing
open. -/
def sample_os : OsState :=
  ⟨[("f", [72, 101, 108, 108, 111, 44, 109, 109, 97, 112, 33, 33])], [], [], 0, []⟩

/-- The outcome of mapping bytes 3 to 6 of `f` into a default-constructed region. -/
def sample_mapped : map_result :=
  mmap_source.map sample_kernel sample_os basic_mmap.default "f" 3 4

/-- The outcome of mapping bytes 0 to 4 of `f` into a second, default-constructed region
while the first mapping is still held. -/
def sample_second : map_result :=
  mmap_source.map sample_kernel sample_mapped.os basic_mmap.default "f" 0 5

/-- The sample kernel, except that every `FlushFileBuffers` fails with `ERROR_ACCESS_DENIED`
(code 5). -/
def flush_failing_kernel : Kernel :=
  { sample_kernel with flush_file := fun _ _ => some ⟨4⟩ }

/-- The sample kernel, except that every `MapViewOfFile` fails with `ERROR_ACCESS_DENIED`
(code 5). -/
def view_failing_kernel : Kernel :=
  { sample_kernel with view_base := fun _ _ _ _ => Except.error ⟨4⟩ }

/-! # Verification -/

/-! ## Machine arithmetic -/

theorem size_t_natCast (n : Nat) (h : n < 18446744073709551616) : size_t (n : Int) = n := by
  unfold size_t
  omega

theorem size_t_lt (n : Int) : size_t n < 18446744073709551616 := by
  unfold size_t
  omega

theorem size_t_int64_t (n : Int) : size_t (int64_t n) = size_t n := by
  unfold size_t int64_t
  split_ifs <;> omega

theorem int64_t_emod (n : Int) :
    int64_t n % 18446744073709551616 = n % 18446744073709551616 := by
  unfold int64_t
  split_ifs <;> omega

theorem int64_high_low (n : Int) : int64_high n * 4294967296 + int64_low n = size_t n := by
  unfold int64_high int64_low ulong size_t
  omega

theorem make_offset_page_aligned_eq (k : Kernel) (offset : Nat)
    (hoff : offset < 18446744073709551616) :
    make_offset_page_aligned k offset
      = offset / k.dwAllocationGranularity * k.dwAllocationGranularity := by
  unfold make_offset_page_aligned page_size
  have h := Nat.div_mul_le_self offset k.dwAllocationGranularity
  exact Nat.mod_eq_of_lt (by omega)

theorem aligned_add_mod (k : Kernel) (offset : Nat) (hoff : offset < 18446744073709551616) :
    make_offset_page_aligned k offset + offset % k.dwAllocationGranularity = offset := by
  rw [make_offset_page_aligned_eq k offset hoff]
  exact Nat.div_add_mod' offset k.dwAllocationGranularity

theorem size_t_congr (a b : Int)
    (h : a % 18446744073709551616 = b % 18446744073709551616) : size_t a = size_t b := by
  unfold size_t
  rw [h]

theorem size_t_natCast_mod (n : Nat) : size_t (n : Int) = n % 18446744073709551616 := by
  unfold size_t
  omega

/-- The value of `length_to_map` in `memory_map`, as the `SIZE_T` handed to the system: the
sum `offset mod G + length` in 64-bit arithmetic. -/
theorem length_to_map_mod (k : Kernel) (offset length : Nat)
    (hoff : offset < 18446744073709551616) :
    size_t (int64_t (int64_t offset
        - int64_t (make_offset_page_aligned k (size_t (int64_t offset))) + int64_t length))
      = (offset % k.dwAllocationGranularity + length) % 18446744073709551616 := by
  have h1 : size_t (int64_t offset) = offset := by
    rw [size_t_int64_t, size_t_natCast offset hoff]
  rw [h1, size_t_int64_t]
  have h2 := aligned_add_mod k offset hoff
  have key : (int64_t offset - int64_t (make_offset_page_aligned k offset) + int64_t length)
        % 18446744073709551616
      = (((offset % k.dwAllocationGranularity + length : Nat) : Int)) % 18446744073709551616 := by
    have e : ((offset % k.dwAllocationGranularity + length : Nat) : Int)
        = (offset : Int) - (make_offset_page_aligned k offset : Nat) + (length : Int) := by
      omega
    rw [e, Int.add_emod, Int.sub_emod, int64_t_emod, int64_t_emod, int64_t_emod,
      ← Int.sub_emod, ← Int.add_emod]
  rw [size_t_congr _ _ key]
  exact size_t_natCast_mod _

/-- The value of `length_to_map` when the sum does not leave `size_t`. -/
theorem length_to_map_eq (k : Kernel) (offset length : Nat)
    (hoff : offset < 18446744073709551616)
    (hlen : offset % k.dwAllocationGranularity + length < 18446744073709551616) :
    size_t (int64_t (int64_t offset
        - int64_t (make_offset_page_aligned k (size_t (int64_t offset))) + int64_t length))
      = offset % k.dwAllocationGranularity + length := by
  rw [length_to_map_mod k offset length hoff]
  exact Nat.mod_eq_of_lt hlen

/-! ## The operating system calls, case by case -/

theorem Failure.code_ne_zero (f : Failure) : f.code ≠ 0 := by
  unfold Failure.code
  omega

theorem lookup_none_filter (hs : List (Nat × Obj)) (m : Nat) (h : hs.lookup m = none) :
    hs.filter (fun e => e.1 != m) = hs := by
  induction hs with
  | nil => rfl
  | cons e es ih =>
    obtain ⟨a, b⟩ := e
    rw [List.lookup_cons] at h
    by_cases hm : m == a
    · simp [hm] at h
    · simp only [hm] at h
      have hne : (a != m) = true := by
        simp only [bne_iff_ne, ne_eq]
        intro hc
        exact hm (by simp [hc])
      simp only [List.filter_cons, hne, if_true, ih h]

theorem fresh_spec (os : OsState) (h : Nat) (hf : os.fresh h = true) :
    h ≠ 0 ∧ h ≠ invalid_handle ∧ h < 18446744073709551616 ∧ os.handles.lookup h = none := by
  unfold OsState.fresh at hf
  simp only [Bool.and_eq_true, bne_iff_ne, ne_eq, decide_eq_true_eq,
    Option.isNone_iff_eq_none] at hf
  exact ⟨hf.1.1.1, hf.1.1.2, hf.1.2, hf.2⟩

theorem vacant_spec (os : OsState) (base len : Nat) (hv : os.vacant base len = true) :
    base ≠ 0 ∧ base + max len 1 ≤ 18446744073709551616 ∧
      ∀ v ∈ os.views, base + max len 1 ≤ v.base ∨ v.base + max v.length 1 ≤ base := by
  unfold OsState.vacant at hv
  simp only [Bool.and_eq_true, bne_iff_ne, ne_eq, decide_eq_true_eq, List.all_eq_true,
    Bool.or_eq_true] at hv
  exact ⟨hv.1.1, hv.1.2, hv.2⟩

theorem CreateFileW_cases (k : Kernel) (os : OsState) (path : String) :
    (∃ code, code ≠ 0 ∧ CreateFileW k os path
        = (invalid_handle, os.fail code (Call.CreateFileW path invalid_handle))) ∨
    (∃ h, os.fresh h = true ∧ CreateFileW k os path
        = (h, { os with handles := (h, Obj.file path) :: os.handles,
                        log := os.log ++ [Call.CreateFileW path h] })) := by
  unfold CreateFileW
  split
  · exact Or.inl ⟨_, by decide, rfl⟩
  · split
    · exact Or.inl ⟨_, Failure.code_ne_zero _, rfl⟩
    · split
      · rename_i hf
        exact Or.inr ⟨_, hf, rfl⟩
      · exact Or.inl ⟨_, by decide, rfl⟩

theorem CreateFileMappingW_cases (k : Kernel) (os : OsState) (hFile high low : Nat) :
    (∃ code, code ≠ 0 ∧ CreateFileMappingW k os hFile high low
        = (0, os.fail code (Call.CreateFileMappingW hFile high low 0))) ∨
    (∃ m path size, os.fresh m = true ∧ os.object hFile = some (Obj.file path) ∧
      CreateFileMappingW k os hFile high low
        = (m, { os with handles := (m, Obj.mapping path size) :: os.handles,
                        log := os.log ++ [Call.CreateFileMappingW hFile high low m] })) := by
  unfold CreateFileMappingW
  split
  · rename_i p hobj
    split
    · exact Or.inl ⟨_, Failure.code_ne_zero _, rfl⟩
    · split
      · rename_i hf
        exact Or.inr ⟨_, p, _, hf, hobj, rfl⟩
      · exact Or.inl ⟨_, by decide, rfl⟩
  · exact Or.inl ⟨_, by decide, rfl⟩

theorem MapViewOfFile_cases (k : Kernel) (os : OsState) (hMap high low bytes : Nat) :
    (∃ code, code ≠ 0 ∧ MapViewOfFile k os hMap high low bytes
        = (0, os.fail code (Call.MapViewOfFile hMap high low bytes 0))) ∨
    (∃ base path size len, os.object hMap = some (Obj.mapping path size) ∧
      os.vacant base len = true ∧ (bytes ≠ 0 → len = bytes) ∧
      MapViewOfFile k os hMap high low bytes
        = (base, { os with views := ⟨base, path, high * 4294967296 + low, len⟩ :: os.views,
                           log := os.log ++ [Call.MapViewOfFile hMap high low bytes base] })) := by
  unfold MapViewOfFile
  split
  · rename_i p sz hobj
    split
    · exact Or.inl ⟨_, Failure.code_ne_zero _, rfl⟩
    · rename_i base hb
      by_cases hv : os.vacant base
          (if bytes = 0 then sz - (high * 4294967296 + low) else bytes) = true
      · refine Or.inr ⟨base, p, sz, _, hobj, hv, ?_, ?_⟩
        · intro hne
          simp [hne]
        · simp only [hv, if_true]
      · refine Or.inl ⟨ERROR_NOT_ENOUGH_MEMORY, by decide, ?_⟩
        simp only [hv, if_false]
        rfl
  · exact Or.inl ⟨_, by decide, rfl⟩

theorem CloseHandle_cases (os : OsState) (h : Nat) :
    ((os.object h).isSome = true ∧ CloseHandle os h
        = (true, { os with handles := os.handles.filter (fun e => e.1 != h),
                           log := os.log ++ [Call.CloseHandle h true] })) ∨
    (os.object h = none ∧ CloseHandle os h
        = (false, os.fail ERROR_INVALID_HANDLE (Call.CloseHandle h false))) := by
  unfold CloseHandle
  split
  · rename_i hs
    exact Or.inl ⟨hs, rfl⟩
  · rename_i hs
    refine Or.inr ⟨?_, rfl⟩
    simpa using hs

theorem object_zero (os : OsState) : os.object 0 = none := by
  simp [OsState.object]

theorem object_cons_self (os : OsState) (m : Nat) (o : Obj) (views : List View)
    (log : List Call) (h0 : m ≠ 0) (h1 : m ≠ invalid_handle) :
    OsState.object { os with handles := (m, o) :: os.handles, views := views, log := log } m
      = some o := by
  simp [OsState.object, h0, h1, List.lookup_cons]

theorem MapViewOfFile_null (k : Kernel) (os : OsState) (high low bytes : Nat) :
    MapViewOfFile k os 0 high low bytes
      = (0, os.fail ERROR_INVALID_HANDLE (Call.MapViewOfFile 0 high low bytes 0)) := by
  unfold MapViewOfFile
  rw [object_zero]

theorem CloseHandle_null (os : OsState) :
    CloseHandle os 0 = (false, os.fail ERROR_INVALID_HANDLE (Call.CloseHandle 0 false)) := by
  unfold CloseHandle
  rw [object_zero]
  rfl

theorem CloseHandle_new (os : OsState) (m : Nat) (o : Obj) (lg : List Call) (code : Nat)
    (c : Call) (hf : os.fresh m = true) :
    CloseHandle (OsState.fail { os with handles := (m, o) :: os.handles, log := lg } code c) m
      = (true, { os with last_error := code, log := lg ++ [c] ++ [Call.CloseHandle m true] }) := by
  obtain ⟨hm0, hminv, -, hlook⟩ := fresh_spec os m hf
  unfold CloseHandle
  have hopen : ((OsState.fail { os with handles := (m, o) :: os.handles, log := lg }
      code c).object m).isSome = true := by
    simp [OsState.object, OsState.fail, hm0, hminv, List.lookup_cons]
  rw [if_pos hopen]
  simp only [OsState.fail, List.filter_cons, bne_self_eq_false, Bool.false_eq_true, if_false,
    lookup_none_filter _ _ hlook]

/-- The two outcomes of `memory_map`: a failure, which leaves the handle table and the views
as they were, or a new mapping object and a new view. -/
theorem memory_map_cases (k : Kernel) (os : OsState) (fh : Nat) (off len : Int)
    (err : error_code) :
    (∃ os1, mmap_source.memory_map k os fh off len err
          = ⟨mmap_context.zero, last_error os1, os1⟩ ∧
        os1.last_error ≠ 0 ∧ os1.handles = os.handles ∧ os1.views = os.views ∧
        os1.files = os.files) ∨
    (∃ m path size base vlen log,
        os.fresh m = true ∧ os.object fh = some (Obj.file path) ∧
        os.vacant base vlen = true ∧
        (size_t (int64_t (off - int64_t (make_offset_page_aligned k (size_t off)) + len)) ≠ 0 →
          vlen = size_t (int64_t (off - int64_t (make_offset_page_aligned k (size_t off)) + len))) ∧
        mmap_source.memory_map k os fh off len err
          = ⟨⟨size_t ((base : Int) + off - int64_t (make_offset_page_aligned k (size_t off))),
              len, int64_t (off - int64_t (make_offset_page_aligned k (size_t off)) + len), m⟩,
             err,
             { os with
                handles := (m, Obj.mapping path size) :: os.handles,
                views := ⟨base, path,
                  size_t (int64_t (make_offset_page_aligned k (size_t off))), vlen⟩ :: os.views,
                log := log }⟩ ∧
        Call.MapViewOfFile m (int64_high (int64_t (make_offset_page_aligned k (size_t off))))
          (int64_low (int64_t (make_offset_page_aligned k (size_t off))))
          (size_t (int64_t (off - int64_t (make_offset_page_aligned k (size_t off)) + len)))
          base ∈ log) := by
  unfold mmap_source.memory_map
  simp only []
  rcases CreateFileMappingW_cases k os fh (int64_high (int64_t (off + len)))
      (int64_low (int64_t (off + len))) with ⟨code, hcode, hc⟩ | ⟨m, path, size, hfresh, hobj, hc⟩
  · left
    rw [hc]
    simp only [MapViewOfFile_null, CloseHandle_null]
    have h0 : (0 : Nat) ≠ invalid_handle := by decide
    simp only [h0, if_false, if_true]
    refine ⟨_, rfl, ?_, rfl, rfl, rfl⟩
    simp [OsState.fail, ERROR_INVALID_HANDLE]
  · obtain ⟨hm0, hminv, -, hlook⟩ := fresh_spec os m hfresh
    rw [hc]
    simp only [hminv, if_false]
    rcases MapViewOfFile_cases k
        { os with handles := (m, Obj.mapping path size) :: os.handles,
                  log := os.log ++ [Call.CreateFileMappingW fh (int64_high (int64_t (off + len)))
                    (int64_low (int64_t (off + len))) m] }
        m (int64_high (int64_t (make_offset_page_aligned k (size_t off))))
        (int64_low (int64_t (make_offset_page_aligned k (size_t off))))
        (size_t (int64_t (off - int64_t (make_offset_page_aligned k (size_t off)) + len)))
      with ⟨code, hcode, hv⟩ | ⟨base, vpath, vsize, vlen, hvobj, hvac, hvlen, hv⟩
    · left
      rw [hv]
      simp only [if_true]
      rw [CloseHandle_new _ _ _ _ _ _ hfresh]
      exact ⟨_, rfl, hcode, rfl, rfl, rfl⟩
    · right
      have hobj2 := object_cons_self os m (Obj.mapping path size) os.views
        (os.log ++ [Call.CreateFileMappingW fh (int64_high (int64_t (off + len)))
                    (int64_low (int64_t (off + len))) m]) hm0 hminv
      rw [hobj2] at hvobj
      injection hvobj with hvobj
      injection hvobj with hp hs
      subst hp
      subst hs
      obtain ⟨hb0, -, -⟩ := vacant_spec _ _ _ hvac
      rw [hv]
      simp only [hb0, if_false, int64_high_low]
      exact ⟨m, path, size, base, vlen, _, hfresh, hobj, hvac, hvlen, rfl, by simp⟩

theorem file_size_cases (k : Kernel) (os : OsState) (path : String) :
    (∃ e, e.failed = true ∧ file_size k os path
        = (18446744073709551615, e, os.record (Call.file_size path false))) ∨
    (∃ F, os.files.lookup path = some F ∧ file_size k os path
        = (F.length % 18446744073709551616, error_code.clear,
            os.record (Call.file_size path true))) := by
  unfold file_size
  split
  · exact Or.inl ⟨_, by decide, rfl⟩
  · rename_i F hF
    split
    · rename_i f hf
      refine Or.inl ⟨_, ?_, rfl⟩
      simp [error_code.failed, Failure.code]
    · exact Or.inr ⟨F, hF, rfl⟩

theorem last_error_failed (os : OsState) (h : os.last_error ≠ 0) :
    (last_error os).failed = true := by
  simp [last_error, GetLastError, error_code.failed, h]

theorem open_file_cases (k : Kernel) (os : OsState) (path : String)
    (hne : path.isEmpty = false) :
    (∃ os1, mmap_source.open_file k os path = ⟨invalid_handle, last_error os1, os1⟩ ∧
        os1.last_error ≠ 0 ∧ os1.handles = os.handles ∧ os1.views = os.views ∧
        os1.files = os.files) ∨
    (∃ h, os.fresh h = true ∧ mmap_source.open_file k os path
        = ⟨h, error_code.clear,
            { os with handles := (h, Obj.file path) :: os.handles,
                      log := os.log ++ [Call.CreateFileW path h] }⟩) := by
  unfold mmap_source.open_file
  simp only [hne, Bool.false_eq_true, if_false]
  rcases CreateFileW_cases k os path with ⟨code, hcode, hc⟩ | ⟨h, hfresh, hc⟩
  · left
    rw [hc]
    simp only [if_true]
    exact ⟨_, rfl, hcode, rfl, rfl, rfl⟩
  · right
    obtain ⟨-, hinv, -, -⟩ := fresh_spec os h hfresh
    rw [hc]
    simp only [hinv, if_false]
    exact ⟨h, hfresh, rfl⟩

theorem fresh_cons (os : OsState) (h m : Nat) (o : Obj) (lg : List Call)
    (hf : OsState.fresh { os with handles := (h, o) :: os.handles, log := lg } m = true) :
    m ≠ h ∧ os.fresh m = true := by
  unfold OsState.fresh at hf ⊢
  simp only [Bool.and_eq_true, bne_iff_ne, ne_eq, decide_eq_true_eq,
    Option.isNone_iff_eq_none, List.lookup_cons] at hf ⊢
  obtain ⟨⟨⟨h0, h1⟩, h2⟩, h3⟩ := hf
  by_cases hm : m == h
  · simp [hm] at h3
  · simp only [hm] at h3
    refine ⟨?_, ⟨⟨h0, h1⟩, h2⟩, h3⟩
    intro hc
    exact hm (by simp [hc])

/-- The two outcomes of `map`.  A failure returns the region as it was and leaves the views
as they were; the handle table is as it was, or holds the file handle the call opened.  A
success adopts a new file handle, mapping object and view, and unmaps what the region held. -/
theorem map_cases (k : Kernel) (os : OsState) (r : basic_mmap) (path : String)
    (offset length : Nat) :
    (∃ e os1, mmap_source.map k os r path offset length = ⟨r, e, os1⟩ ∧ e.failed = true ∧
        os1.views = os.views ∧ os1.files = os.files ∧
        (os1.handles = os.handles ∨
          ∃ h, os.fresh h = true ∧ os1.handles = (h, Obj.file path) :: os.handles)) ∨
    (∃ (F : List Nat) (h m size base vlen : Nat) (os3 : OsState),
        mmap_source.map k os r path offset length
          = ⟨{ data_ := size_t ((base : Int) + int64_t offset
                  - int64_t (make_offset_page_aligned k (size_t (int64_t offset)))),
               length_ := size_t (int64_t (memory_map_length (F.length % 18446744073709551616) offset length)),
               mapped_length_ := size_t (int64_t (int64_t offset
                  - int64_t (make_offset_page_aligned k (size_t (int64_t offset)))
                  + int64_t (memory_map_length (F.length % 18446744073709551616) offset length))),
               file_handle_ := h, file_mapping_handle_ := m },
             error_code.clear, (mmap_source.unmap os3 r).2⟩ ∧
        os.files.lookup path = some F ∧
        (offset + length) % 18446744073709551616 ≤ F.length % 18446744073709551616 ∧
        os.fresh h = true ∧ m ≠ h ∧ os.fresh m = true ∧ os.vacant base vlen = true ∧
        (size_t (int64_t (int64_t offset
            - int64_t (make_offset_page_aligned k (size_t (int64_t offset)))
            + int64_t (memory_map_length (F.length % 18446744073709551616) offset length))) ≠ 0 →
          vlen = size_t (int64_t (int64_t offset
            - int64_t (make_offset_page_aligned k (size_t (int64_t offset)))
            + int64_t (memory_map_length (F.length % 18446744073709551616) offset length)))) ∧
        os3.files = os.files ∧
        os3.handles = (m, Obj.mapping path size) :: (h, Obj.file path) :: os.handles ∧
        os3.views = ⟨base, path,
          size_t (int64_t (make_offset_page_aligned k (size_t (int64_t offset)))), vlen⟩
            :: os.views ∧
        (file_size k os path).1 = F.length % 18446744073709551616 ∧
        Call.MapViewOfFile m
          (int64_high (int64_t (make_offset_page_aligned k (size_t (int64_t offset)))))
          (int64_low (int64_t (make_offset_page_aligned k (size_t (int64_t offset)))))
          (size_t (int64_t (int64_t offset
            - int64_t (make_offset_page_aligned k (size_t (int64_t offset)))
            + int64_t (memory_map_length (F.length % 18446744073709551616) offset length))))
          base ∈ os3.log) := by
  unfold mmap_source.map
  by_cases hp : path.isEmpty = true
  · left
    simp only [hp, if_true]
    exact ⟨_, _, rfl, by decide, rfl, rfl, Or.inl rfl⟩
  · have hp2 : path.isEmpty = false := by simpa using hp
    simp only [hp2, Bool.false_eq_true, if_false]
    rcases file_size_cases k os path with ⟨e, he, hsz⟩ | ⟨F, hF, hsz⟩
    · left
      rw [hsz]
      simp only [he, if_true]
      exact ⟨_, _, rfl, he, rfl, rfl, Or.inl rfl⟩
    · rw [hsz]
      have hclear : error_code.clear.failed = false := by decide
      simp only [hclear, Bool.false_eq_true, if_false]
      rcases open_file_cases k (os.record (Call.file_size path true)) path hp2
        with ⟨os1, ho, herr, hh, hv, hf⟩ | ⟨h, hfresh, ho⟩
      · left
        rw [ho]
        simp only [last_error_failed os1 herr, if_true]
        exact ⟨_, _, rfl, last_error_failed os1 herr, hv, hf, Or.inl hh⟩
      · obtain ⟨-, hinv, -, -⟩ := fresh_spec _ h hfresh
        rw [ho]
        simp only [hclear, Bool.false_eq_true, if_false, hinv]
        by_cases hrange : (offset + length) % 18446744073709551616
            > F.length % 18446744073709551616
        · left
          simp only [hrange, if_true]
          exact ⟨_, _, rfl, by decide, rfl, rfl, Or.inr ⟨h, hfresh, rfl⟩⟩
        · simp only [hrange, if_false]
          rcases memory_map_cases k
              { os.record (Call.file_size path true) with
                  handles := (h, Obj.file path) :: (os.record (Call.file_size path true)).handles,
                  log := (os.record (Call.file_size path true)).log ++ [Call.CreateFileW path h] }
              h (int64_t offset)
              (int64_t (memory_map_length (F.length % 18446744073709551616) offset length)) error_code.clear
            with ⟨os1, hm, herr, hh, hv, hf⟩
              | ⟨m, mpath, size, base, vlen, lg, hmfresh, hmobj, hvac, hvlen, hm, hlg⟩
          · left
            rw [hm]
            simp only [last_error_failed os1 herr, Bool.not_true, Bool.false_eq_true, if_false]
            exact ⟨_, _, rfl, last_error_failed os1 herr, hv, hf, Or.inr ⟨h, hfresh, hh⟩⟩
          · right
            obtain ⟨hh0, -, -, -⟩ := fresh_spec _ h hfresh
            have hobj2 : OsState.object
                { os.record (Call.file_size path true) with
                  handles := (h, Obj.file path) :: (os.record (Call.file_size path true)).handles,
                  log := (os.record (Call.file_size path true)).log ++ [Call.CreateFileW path h] }
                h = some (Obj.file path) := by
              simp [OsState.object, hh0, hinv, List.lookup_cons]
            rw [hobj2] at hmobj
            injection hmobj with hmobj
            injection hmobj with hpath
            subst hpath
            obtain ⟨hmh, hmfresh2⟩ := fresh_cons _ h m _ _ hmfresh
            rw [hm]
            have hnc : (!error_code.clear.failed) = true := by decide
            rw [if_pos hnc]
            dsimp only
            refine ⟨F, h, m, size, base, vlen, _, rfl, hF, Nat.le_of_not_lt hrange, hfresh, hmh,
              hmfresh2, hvac, hvlen, ?_, ?_, ?_, ?_, ?_⟩
            · rfl
            · rfl
            · rfl
            · rfl
            · exact hlg

/-! ## `unmap`, field by field -/

theorem CloseHandle_views (os : OsState) (h : Nat) : (CloseHandle os h).2.views = os.views := by
  unfold CloseHandle
  split <;> rfl

theorem CloseHandle_files (os : OsState) (h : Nat) : (CloseHandle os h).2.files = os.files := by
  unfold CloseHandle
  split <;> rfl

theorem unmap_closed (os : OsState) (r : basic_mmap) (h : r.is_open = false) :
    mmap_source.unmap os r = (r, os) := by
  unfold mmap_source.unmap
  simp [h]

theorem unmap_region (os : OsState) (r : basic_mmap) (h : r.is_open = true) :
    (mmap_source.unmap os r).1 = basic_mmap.default := by
  unfold mmap_source.unmap
  simp [h, basic_mmap.default]

theorem unmap_files (os : OsState) (r : basic_mmap) :
    (mmap_source.unmap os r).2.files = os.files := by
  unfold mmap_source.unmap
  by_cases ho : r.is_open = true
  · by_cases hm : r.is_mapped = true
    · simp [ho, hm, CloseHandle_files, UnmapViewOfFile]
    · simp [ho, hm, CloseHandle_files]
  · simp [ho]

theorem unmap_views (os : OsState) (r : basic_mmap) :
    (mmap_source.unmap os r).2.views
      = if r.is_open = true ∧ r.is_mapped = true then
          os.views.filter (fun v => v.base != r.get_mapping_start)
        else os.views := by
  unfold mmap_source.unmap
  by_cases ho : r.is_open = true
  · by_cases hm : r.is_mapped = true
    · simp [ho, hm, CloseHandle_views, UnmapViewOfFile]
    · simp [ho, hm, CloseHandle_views]
  · simp [ho]

theorem memory_map_length_entire (S o : Nat) (hS : S < 18446744073709551616) (ho : o ≤ S) :
    memory_map_length S o map_entire_file = S - o := by
  unfold memory_map_length size_t
  simp only [if_true]
  omega

theorem file_size_of_lookup (k : Kernel) (os : OsState) (path : String) (F : List Nat)
    (hF : os.files.lookup path = some F) (hS : F.length < 18446744073709551616)
    (hstat : k.stat os path = none) :
    (file_size k os path).1 = F.length := by
  unfold file_size
  rw [hF]
  simp only [hstat]
  exact Nat.mod_eq_of_lt hS

/-! ## C2: the strong guarantee of `map` -/

/-- C2.  Strong guarantee of `map`: whenever `map(path, offset, length, error)` reports an
error, whatever the state of the region (open or closed) and whichever step failed, the five
members of the region (data pointer, length, mapped length, file handle, mapping handle) are
what they were before the call, and the mapping the region held has not been unmapped: the
list of mapped views is unchanged, every handle that was open is still open on the same
object, and every byte of the region reads as before. -/
theorem map_strong_guarantee (k : Kernel) (os : OsState) (r : basic_mmap) (path : String)
    (offset length : Nat)
    (herr : (mmap_source.map k os r path offset length).error.failed = true) :
    (mmap_source.map k os r path offset length).region.data_ = r.data_ ∧
    (mmap_source.map k os r path offset length).region.length_ = r.length_ ∧
    (mmap_source.map k os r path offset length).region.mapped_length_ = r.mapped_length_ ∧
    (mmap_source.map k os r path offset length).region.file_handle_ = r.file_handle_ ∧
    (mmap_source.map k os r path offset length).region.file_mapping_handle_
      = r.file_mapping_handle_ ∧
    (mmap_source.map k os r path offset length).os.views = os.views ∧
    (∀ h o, os.object h = some o →
      (mmap_source.map k os r path offset length).os.object h = some o) ∧
    (∀ i, (mmap_source.map k os r path offset length).region.index
        (mmap_source.map k os r path offset length).os i = r.index os i) := by
  rcases map_cases k os r path offset length with
    ⟨e, os1, hmap, -, hviews, hfiles, hhandles⟩ | ⟨F, h, m, size, base, vlen, os3, hmap, -⟩
  · rw [hmap]
    refine ⟨rfl, rfl, rfl, rfl, rfl, hviews, ?_, ?_⟩
    · intro h o hobj
      rcases hhandles with hsame | ⟨h2, hfresh, hcons⟩
      · simpa only [OsState.object, hsame] using hobj
      · obtain ⟨-, -, -, hlook⟩ := fresh_spec os h2 hfresh
        unfold OsState.object at hobj ⊢
        simp only [hcons]
        by_cases hz : h = 0 ∨ h = invalid_handle
        · simp [hz] at hobj
        · simp only [hz, if_false] at hobj ⊢
          have hne : (h == h2) = false := by
            simp only [beq_eq_false_iff_ne, ne_eq]
            intro hc
            rw [hc, hlook] at hobj
            exact Option.noConfusion hobj
          rw [List.lookup_cons, hne]
          exact hobj
    · intro i
      simp only [basic_mmap.index, OsState.read, hviews, hfiles]
  · rw [hmap] at herr
    change error_code.clear.failed = true at herr
    exact absurd herr (by decide)

/-- C2, at a concrete input: a region that holds bytes 3 to 6 of `f` is asked to map 13 bytes
of the 12-byte file; the call fails and the region is untouched. -/
theorem map_strong_guarantee_witness :
    (mmap_source.map sample_kernel sample_mapped.os sample_mapped.region "f" 0 13).error.failed
      = true ∧
    (mmap_source.map sample_kernel sample_mapped.os sample_mapped.region "f" 0 13).region.data_
      = 262147 ∧
    (mmap_source.map sample_kernel sample_mapped.os sample_mapped.region "f" 0 13).os.views
      = sample_mapped.os.views :=
  ⟨by decide,
   (map_strong_guarantee sample_kernel sample_mapped.os sample_mapped.region "f" 0 13
      (by decide)).1.trans (by decide),
   (map_strong_guarantee sample_kernel sample_mapped.os sample_mapped.region "f" 0 13
      (by decide)).2.2.2.2.2.1⟩

/-! ## C5: the entire-file sentinel -/

/-- C5.  Entire-file sentinel: for a file of size `S` (zero included) and an offset `o ≤ S`,
the length `map(path, o, map_entire_file)` passes to `memory_map` is `S - o`, and when the call
succeeds the region has `length() == S - o`, so that `empty()` holds exactly when `o == S`. -/
theorem map_entire_file_length (k : Kernel) (os : OsState) (r : basic_mmap) (path : String)
    (o : Nat) (F : List Nat)
    (hF : os.files.lookup path = some F) (hS : F.length < 18446744073709551616)
    (ho : o ≤ F.length)
    (hok : (mmap_source.map k os r path o map_entire_file).error.failed = false) :
    memory_map_length (file_size k os path).1 o map_entire_file = F.length - o ∧
    (mmap_source.map k os r path o map_entire_file).region.length = F.length - o ∧
    ((mmap_source.map k os r path o map_entire_file).region.empty = true ↔ o = F.length) := by
  rcases map_cases k os r path o map_entire_file with
    ⟨e, os1, hmap, he, -⟩ |
    ⟨F2, h, m, size, base, vlen, os3, hmap, hF2, -, -, -, -, -, -, -, -, -, hsz, -⟩
  · rw [hmap] at hok
    change e.failed = false at hok
    rw [he] at hok
    exact absurd hok (by decide)
  · rw [hF] at hF2
    injection hF2 with hF2
    subst hF2
    rw [Nat.mod_eq_of_lt hS] at hsz hmap
    have hlen : size_t (int64_t ((memory_map_length F.length o map_entire_file : Nat) : Int))
        = F.length - o := by
      rw [size_t_int64_t, memory_map_length_entire F.length o hS ho]
      exact size_t_natCast _ (by omega)
    have hreg : (mmap_source.map k os r path o map_entire_file).region.length_
        = F.length - o := by
      rw [hmap]
      dsimp only
      exact hlen
    refine ⟨?_, hreg, ?_⟩
    · rw [hsz]
      exact memory_map_length_entire F.length o hS ho
    · unfold basic_mmap.empty basic_mmap.length
      rw [hreg, beq_iff_eq]
      omega

/-- C5, at a concrete input: mapping `f` (12 bytes) from offset 5 to its end gives a region
of 7 bytes. -/
theorem map_entire_file_length_witness :
    memory_map_length (file_size sample_kernel sample_os "f").1 5 map_entire_file = 12 - 5 ∧
    (mmap_source.map sample_kernel sample_os basic_mmap.default "f" 5
        map_entire_file).region.length = 12 - 5 ∧
    ((mmap_source.map sample_kernel sample_os basic_mmap.default "f" 5
        map_entire_file).region.empty = true ↔ 5 = 12) :=
  map_entire_file_length sample_kernel sample_os basic_mmap.default "f" 5
    [72, 101, 108, 108, 111, 44, 109, 109, 97, 112, 33, 33] (by decide) (by decide) (by decide)
    (by decide)

/-! ## C1: the bytes of a mapping -/

theorem read_cons_covers (os : OsState) (v : View) (rest : List View) (addr : Nat)
    (F : List Nat) (hviews : os.views = v :: rest) (hc : v.covers addr = true)
    (hf : os.files.lookup v.path = some F) :
    os.read addr = F[v.offset + (addr - v.base)]? := by
  unfold OsState.read
  simp only [hviews, List.find?_cons, hc, hf]

theorem data_pointer_eq (k : Kernel) (base offset : Nat)
    (hoff : offset < 18446744073709551616)
    (hb : base + offset % k.dwAllocationGranularity < 18446744073709551616) :
    size_t ((base : Int) + int64_t offset
        - int64_t (make_offset_page_aligned k (size_t (int64_t offset))))
      = base + offset % k.dwAllocationGranularity := by
  have h1 : size_t (int64_t offset) = offset := by
    rw [size_t_int64_t, size_t_natCast offset hoff]
  rw [h1]
  have h2 := aligned_add_mod k offset hoff
  have key : ((base : Int) + int64_t offset - int64_t (make_offset_page_aligned k offset))
        % 18446744073709551616
      = (((base + offset % k.dwAllocationGranularity : Nat) : Int)) % 18446744073709551616 := by
    have e : ((base + offset % k.dwAllocationGranularity : Nat) : Int)
        = (base : Int) + (offset : Int) - (make_offset_page_aligned k offset : Nat) := by
      omega
    rw [e, Int.sub_emod, Int.add_emod, int64_t_emod, int64_t_emod, ← Int.add_emod,
      ← Int.sub_emod]
  rw [size_t_congr _ _ key]
  exact size_t_natCast _ hb

theorem memory_map_length_le (S offset length : Nat) (hS : S < 18446744073709551616)
    (hrange : offset + length ≤ S) :
    offset + memory_map_length S offset length ≤ S := by
  unfold memory_map_length map_entire_file size_t
  split_ifs <;> omega

theorem live_view_ne (os : OsState) (r : basic_mmap) (base vlen : Nat)
    (hlive : r.holds_live_view os = true) (hvac : os.vacant base vlen = true)
    (hopen : r.is_open = true ∧ r.is_mapped = true) :
    ((base != r.get_mapping_start) = true) := by
  obtain ⟨hb0, -, hdis⟩ := vacant_spec os base vlen hvac
  unfold basic_mmap.holds_live_view at hlive
  simp only [hopen.1, hopen.2, Bool.and_self, Bool.not_true, Bool.false_or, Bool.or_eq_true,
    beq_iff_eq, List.any_eq_true] at hlive
  simp only [bne_iff_ne, ne_eq]
  rcases hlive with h0 | ⟨v, hv, hvb⟩
  · rw [h0]
    exact hb0
  · rw [← hvb]
    have := hdis v hv
    omega

/-- C1.  Bytes of a mapping: with the file a byte sequence `F` of size `S` and the system
showing, in a view of `n` bytes from `aligned_offset`, the byte `F[aligned_offset + j]` at
position `j`, for every granularity `G > 0`, every offset and every length with
`offset + length ≤ S`, after a successful `mmap_source::map(path, offset, length)` the region's
`operator[](i)` is `F[offset + i]` for every `i` in `[0, length())`. -/
theorem map_bytes (k : Kernel) (os : OsState) (r : basic_mmap) (path : String)
    (offset length : Nat) (F : List Nat)
    (_hG : 0 < k.dwAllocationGranularity)
    (hF : os.files.lookup path = some F) (hS : F.length < 18446744073709551616)
    (hrange : offset + length ≤ F.length)
    (hlive : r.holds_live_view os = true)
    (hok : (mmap_source.map k os r path offset length).error.failed = false)
    (i : Nat) (hi : i < (mmap_source.map k os r path offset length).region.length) :
    offset + i < F.length ∧
    (mmap_source.map k os r path offset length).region.index
        (mmap_source.map k os r path offset length).os i = F[offset + i]? := by
  rcases map_cases k os r path offset length with
    ⟨e, os1, hmap, he, -⟩ |
    ⟨F2, h, m, size, base, vlen, os3, hmap, hF2, -, -, -, -, hvac, hvlen, hfiles, -, hviews, -⟩
  · rw [hmap] at hok
    change e.failed = false at hok
    rw [he] at hok
    exact absurd hok (by decide)
  · rw [hF] at hF2
    injection hF2 with hF2
    subst hF2
    rw [Nat.mod_eq_of_lt hS] at hmap hvlen
    have hle := memory_map_length_le F.length offset length hS hrange
    have hoff : offset < 18446744073709551616 := by omega
    have hmodle : offset % k.dwAllocationGranularity ≤ offset := Nat.mod_le _ _
    have hbytes := length_to_map_eq k offset (memory_map_length F.length offset length) hoff
      (by omega)
    have hlen : size_t (int64_t ((memory_map_length F.length offset length : Nat) : Int))
        = memory_map_length F.length offset length := by
      rw [size_t_int64_t]
      exact size_t_natCast _ (by omega)
    rw [hbytes] at hvlen hmap
    rw [hlen] at hmap
    have hreg : (mmap_source.map k os r path offset length).region.length_
        = memory_map_length F.length offset length := by
      rw [hmap]
    unfold basic_mmap.length at hi
    rw [hreg] at hi
    have hvl : vlen = offset % k.dwAllocationGranularity
        + memory_map_length F.length offset length := hvlen (by omega)
    obtain ⟨hb0, hbnd, -⟩ := vacant_spec os base vlen hvac
    have hdata := data_pointer_eq k base offset hoff (by omega)
    rw [hdata] at hmap
    have hal : size_t (int64_t (make_offset_page_aligned k (size_t (int64_t offset))))
        = make_offset_page_aligned k offset := by
      rw [size_t_int64_t, size_t_int64_t, size_t_natCast offset hoff]
      have := aligned_add_mod k offset hoff
      exact size_t_natCast _ (by omega)
    rw [hal] at hviews
    have hsplit := aligned_add_mod k offset hoff
    refine ⟨by omega, ?_⟩
    have hel : (mmap_source.map k os r path offset length).region.element i
        = base + offset % k.dwAllocationGranularity + i := by
      rw [hmap]
      unfold basic_mmap.element
      dsimp only
      have : ((base + offset % k.dwAllocationGranularity : Nat) : Int) + (i : Int)
          = ((base + offset % k.dwAllocationGranularity + i : Nat) : Int) := by
        push_cast
        rfl
      rw [this]
      exact size_t_natCast _ (by omega)
    have hos : (mmap_source.map k os r path offset length).os = (mmap_source.unmap os3 r).2 := by
      rw [hmap]
    have hv2 : ∃ rest, (mmap_source.map k os r path offset length).os.views
        = ⟨base, path, make_offset_page_aligned k offset, vlen⟩ :: rest := by
      rw [hos, unmap_views, hviews]
      by_cases hopen : r.is_open = true ∧ r.is_mapped = true
      · have hne := live_view_ne os r base vlen hlive hvac hopen
        rw [if_pos hopen]
        simp only [List.filter_cons, hne, if_true]
        exact ⟨_, rfl⟩
      · rw [if_neg hopen]
        exact ⟨_, rfl⟩
    obtain ⟨rest, hv2⟩ := hv2
    have hf2 : (mmap_source.map k os r path offset length).os.files.lookup path = some F := by
      rw [hos, unmap_files, hfiles]
      exact hF
    have hcov : View.covers ⟨base, path, make_offset_page_aligned k offset, vlen⟩
        (base + offset % k.dwAllocationGranularity + i) = true := by
      simp only [View.covers, Bool.and_eq_true, decide_eq_true_eq]
      omega
    have hread := read_cons_covers _ _ rest _ F hv2 hcov hf2
    unfold basic_mmap.index
    rw [hel, hread]
    dsimp only
    have hidx : make_offset_page_aligned k offset
        + (base + offset % k.dwAllocationGranularity + i - base) = offset + i := by
      omega
    rw [hidx]

/-- C1, at a concrete input: the region that holds bytes 3 to 6 of `f` is remapped to bytes
1 and 2; its second byte is then the third byte of the file. -/
theorem map_bytes_witness :
    1 + 1 < [72, 101, 108, 108, 111, 44, 109, 109, 97, 112, 33, 33].length ∧
    (mmap_source.map sample_kernel sample_mapped.os sample_mapped.region "f" 1 2).region.index
        (mmap_source.map sample_kernel sample_mapped.os sample_mapped.region "f" 1 2).os 1
      = [72, 101, 108, 108, 111, 44, 109, 109, 97, 112, 33, 33][1 + 1]? :=
  map_bytes sample_kernel sample_mapped.os sample_mapped.region "f" 1 2
    [72, 101, 108, 108, 111, 44, 109, 109, 97, 112, 33, 33]
    (by decide) (by decide) (by decide) (by decide) (by decide) (by decide) 1 (by decide)

/-! ## C10: alignment arithmetic -/

/-- The calls `memory_map` makes: `CreateFileMappingW`, then `MapViewOfFile` on its result for
`length_to_map` bytes from the aligned offset, then at most a `CloseHandle` of the mapping
object. -/
theorem memory_map_log (k : Kernel) (os : OsState) (fh : Nat) (off len : Int)
    (err : error_code) :
    ∃ m res rest,
      (mmap_source.memory_map k os fh off len err).os.log
        = os.log ++ Call.CreateFileMappingW fh (int64_high (int64_t (off + len)))
            (int64_low (int64_t (off + len))) m
          :: Call.MapViewOfFile m
              (int64_high (int64_t (make_offset_page_aligned k (size_t off))))
              (int64_low (int64_t (make_offset_page_aligned k (size_t off))))
              (size_t (int64_t (off - int64_t (make_offset_page_aligned k (size_t off)) + len)))
              res
          :: rest ∧
      ∀ c ∈ rest, ∃ ok, c = Call.CloseHandle m ok := by
  unfold mmap_source.memory_map
  simp only []
  rcases CreateFileMappingW_cases k os fh (int64_high (int64_t (off + len)))
      (int64_low (int64_t (off + len))) with ⟨code, hcode, hc⟩ | ⟨m, path, size, hfresh, hobj, hc⟩
  · rw [hc]
    simp only [MapViewOfFile_null, CloseHandle_null]
    have h0 : (0 : Nat) ≠ invalid_handle := by decide
    simp only [h0, if_false, if_true]
    refine ⟨0, 0, [Call.CloseHandle 0 false], ?_, ?_⟩
    · simp [OsState.fail]
    · intro c hcm
      exact ⟨false, by simpa using hcm⟩
  · obtain ⟨hm0, hminv, -, hlook⟩ := fresh_spec os m hfresh
    rw [hc]
    simp only [hminv, if_false]
    rcases MapViewOfFile_cases k
        { os with handles := (m, Obj.mapping path size) :: os.handles,
                  log := os.log ++ [Call.CreateFileMappingW fh (int64_high (int64_t (off + len)))
                    (int64_low (int64_t (off + len))) m] }
        m (int64_high (int64_t (make_offset_page_aligned k (size_t off))))
        (int64_low (int64_t (make_offset_page_aligned k (size_t off))))
        (size_t (int64_t (off - int64_t (make_offset_page_aligned k (size_t off)) + len)))
      with ⟨code, hcode, hv⟩ | ⟨base, vpath, vsize, vlen, hvobj, hvac, hvlen, hv⟩
    · rw [hv]
      simp only [if_true]
      rw [CloseHandle_new _ _ _ _ _ _ hfresh]
      refine ⟨m, 0, [Call.CloseHandle m true], ?_, ?_⟩
      · simp
      · intro c hcm
        exact ⟨true, by simpa using hcm⟩
    · obtain ⟨hb0, -, -⟩ := vacant_spec _ _ _ hvac
      rw [hv]
      simp only [hb0, if_false]
      refine ⟨m, base, [], ?_, ?_⟩
      · simp
      · intro c hcm
        simp at hcm

/-- C10.  Alignment arithmetic: for every granularity `G > 0` and every offset,
`make_offset_page_aligned(offset)` is `floor(offset / G) * G`, the largest multiple of `G` not
exceeding `offset` (it is divisible by `G`, is `≤ offset`, and `offset - aligned_offset < G`);
and the length `memory_map` requests from the system in its `MapViewOfFile` call, at the
aligned offset, is `(offset - aligned_offset) + length = (offset mod G) + length`, computed in
the 64-bit arithmetic of the code: it is that sum itself whenever the sum is a `size_t`. -/
theorem alignment_arithmetic (k : Kernel) (offset : Nat)
    (hG : 0 < k.dwAllocationGranularity) (hoff : offset < 18446744073709551616) :
    make_offset_page_aligned k offset
      = offset / k.dwAllocationGranularity * k.dwAllocationGranularity ∧
    k.dwAllocationGranularity ∣ make_offset_page_aligned k offset ∧
    make_offset_page_aligned k offset ≤ offset ∧
    offset - make_offset_page_aligned k offset < k.dwAllocationGranularity ∧
    (∀ m, k.dwAllocationGranularity ∣ m → m ≤ offset → m ≤ make_offset_page_aligned k offset) ∧
    (∀ length, (offset - make_offset_page_aligned k offset) + length
        = offset % k.dwAllocationGranularity + length) ∧
    (∀ (length : Nat) (os : OsState) (file_handle : Nat) (error : error_code),
      ∃ m high low res rest,
        (mmap_source.memory_map k os file_handle (int64_t offset) (int64_t length) error).os.log
          = os.log ++ Call.CreateFileMappingW file_handle
                (int64_high (int64_t (int64_t offset + int64_t length)))
                (int64_low (int64_t (int64_t offset + int64_t length))) m
              :: Call.MapViewOfFile m high low
                  (((offset - make_offset_page_aligned k offset) + length)
                    % 18446744073709551616) res
              :: rest ∧
        high * 4294967296 + low = make_offset_page_aligned k offset ∧
        (∀ c ∈ rest, ∃ ok, c = Call.CloseHandle m ok) ∧
        (offset % k.dwAllocationGranularity + length < 18446744073709551616 →
          ((offset - make_offset_page_aligned k offset) + length) % 18446744073709551616
            = (offset - make_offset_page_aligned k offset) + length)) := by
  have heq := make_offset_page_aligned_eq k offset hoff
  have hsplit := aligned_add_mod k offset hoff
  have hmod := Nat.mod_lt offset hG
  have hsub : offset - make_offset_page_aligned k offset
      = offset % k.dwAllocationGranularity := by omega
  refine ⟨heq, ?_, by omega, by omega, ?_, ?_, ?_⟩
  · rw [heq]
    exact Dvd.intro_left _ rfl
  · intro m hdvd hle
    obtain ⟨c, rfl⟩ := hdvd
    rw [heq]
    have hc : c ≤ offset / k.dwAllocationGranularity := by
      rw [Nat.le_div_iff_mul_le hG, Nat.mul_comm]
      exact hle
    calc k.dwAllocationGranularity * c = c * k.dwAllocationGranularity := Nat.mul_comm _ _
      _ ≤ offset / k.dwAllocationGranularity * k.dwAllocationGranularity :=
        Nat.mul_le_mul_right _ hc
  · intro length
    rw [hsub]
  · intro length os file_handle error
    obtain ⟨m, res, rest, hlog, hrest⟩ := memory_map_log k os file_handle (int64_t offset)
      (int64_t length) error
    have hbytes := length_to_map_mod k offset length hoff
    have h1 : size_t (int64_t offset) = offset := by
      rw [size_t_int64_t, size_t_natCast offset hoff]
    rw [hbytes] at hlog
    rw [h1] at hlog
    refine ⟨m, int64_high (int64_t (make_offset_page_aligned k offset)),
      int64_low (int64_t (make_offset_page_aligned k offset)), res, rest, ?_, ?_, hrest, ?_⟩
    · rw [hsub]
      exact hlog
    · rw [int64_high_low, size_t_int64_t]
      exact size_t_natCast _ (by omega)
    · intro hlen
      rw [hsub]
      exact Nat.mod_eq_of_lt hlen

/-- C10, at a concrete input: with the 64 KiB granularity, offset 70000 is aligned down to
65536 and a request for 100 bytes maps 4564 bytes. -/
theorem alignment_arithmetic_witness :
    make_offset_page_aligned sample_kernel 70000 = 65536 ∧
    (70000 - make_offset_page_aligned sample_kernel 70000) + 100 = 70000 % 65536 + 100 :=
  ⟨(alignment_arithmetic sample_kernel 70000 (by decide) (by decide)).1.trans (by decide),
   (alignment_arithmetic sample_kernel 70000 (by decide) (by decide)).2.2.2.2.2.1 100⟩

/-! ## Closing handles -/

theorem lookup_filter (hs : List (Nat × Obj)) (h x : Nat) :
    (hs.filter (fun e => e.1 != h)).lookup x = if x = h then none else hs.lookup x := by
  induction hs with
  | nil => simp
  | cons e es ih =>
    obtain ⟨a, b⟩ := e
    by_cases hah : a = h
    · subst hah
      simp only [List.filter_cons, bne_self_eq_false, Bool.false_eq_true, if_false, ih,
        List.lookup_cons]
      by_cases hx : x = a
      · simp [hx]
      · have : (x == a) = false := by simpa using hx
        simp [hx, this]
    · have hne : (a != h) = true := by simpa using hah
      simp only [List.filter_cons, hne, if_true, List.lookup_cons, ih]
      by_cases hx : x = a
      · subst hx
        simp [hah]
      · have : (x == a) = false := by simpa using hx
        simp [this]

theorem CloseHandle_object_self (os : OsState) (h : Nat) :
    (CloseHandle os h).2.object h = none := by
  rcases CloseHandle_cases os h with ⟨-, hc⟩ | ⟨hnone, hc⟩
  · rw [hc]
    simp [OsState.object, lookup_filter]
  · rw [hc]
    exact hnone

theorem CloseHandle_object_other (os : OsState) (h x : Nat) (hx : x ≠ h) :
    (CloseHandle os h).2.object x = os.object x := by
  rcases CloseHandle_cases os h with ⟨-, hc⟩ | ⟨-, hc⟩
  · rw [hc]
    simp [OsState.object, lookup_filter, hx]
  · rw [hc]
    rfl

theorem CloseHandle_object_none (os : OsState) (h x : Nat) (hx : os.object x = none) :
    (CloseHandle os h).2.object x = none := by
  by_cases hxh : x = h
  · rw [hxh]
    exact CloseHandle_object_self os h
  · rw [CloseHandle_object_other os h x hxh]
    exact hx

theorem unmap_object_other (os : OsState) (r : basic_mmap) (x : Nat)
    (hf : x ≠ r.file_handle_) (hm : x ≠ r.file_mapping_handle_) :
    (mmap_source.unmap os r).2.object x = os.object x := by
  unfold mmap_source.unmap
  by_cases ho : r.is_open = true
  · by_cases hmp : r.is_mapped = true
    · simp only [ho, hmp, Bool.not_true, Bool.false_eq_true, if_false, if_true]
      rw [CloseHandle_object_other _ _ _ hf, CloseHandle_object_other _ _ _ hm]
      rfl
    · simp only [ho, hmp, Bool.not_true, Bool.false_eq_true, if_false]
      rw [CloseHandle_object_other _ _ _ hf]
  · simp [ho]

theorem unmap_object_closed (os : OsState) (r : basic_mmap) (ho : r.is_open = true)
    (hmp : r.is_mapped = true) :
    (mmap_source.unmap os r).2.object r.file_handle_ = none ∧
    (mmap_source.unmap os r).2.object r.file_mapping_handle_ = none := by
  unfold mmap_source.unmap
  simp only [ho, hmp, Bool.not_true, Bool.false_eq_true, if_false, if_true]
  exact ⟨CloseHandle_object_self _ _,
    CloseHandle_object_none _ _ _ (CloseHandle_object_self _ _)⟩

theorem find_filter (vs : List View) (p q : View → Bool)
    (h : ∀ v ∈ vs, p v = true → q v = true) :
    (vs.filter q).find? p = vs.find? p := by
  induction vs with
  | nil => rfl
  | cons v vs ih =>
    have ih2 := ih (fun w hw => h w (List.mem_cons_of_mem _ hw))
    by_cases hq : q v = true
    · simp only [List.filter_cons, hq, if_true, List.find?_cons, ih2]
    · have hp : p v = false := by
        by_cases hp : p v = true
        · exact absurd (h v (List.mem_cons_self _ _) hp) hq
        · simpa using hp
      simp only [List.filter_cons, hq, Bool.false_eq_true, if_false, List.find?_cons, hp, ih2]

/-! ## C6: move transfer -/

/-- C6.  Move transfer: for every source `b` and every other destination `a`, after the move
construction `a(move(b))` and after the move assignment `a = move(b)`, `b` is closed
(`is_open()` false, data null, both lengths zero, both handles invalid) and the data pointer,
length, mapped length, file handle and mapping handle of `a` are those `b` held before.  So
`a[i]` is the element `b[i]` was: always the same address, and the same byte for every `i`
below the length, provided that in the assignment the view `a` releases covers no byte of
`b` (each view has a single owner). -/
theorem move_transfer (os : OsState) (a b : basic_mmap) :
    ((basic_mmap.move_construct b).2.is_open = false ∧
      (basic_mmap.move_construct b).2.data_ = 0 ∧
      (basic_mmap.move_construct b).2.length_ = 0 ∧
      (basic_mmap.move_construct b).2.mapped_length_ = 0 ∧
      (basic_mmap.move_construct b).2.file_handle_ = invalid_handle ∧
      (basic_mmap.move_construct b).2.file_mapping_handle_ = invalid_handle ∧
      (basic_mmap.move_construct b).1.data_ = b.data_ ∧
      (basic_mmap.move_construct b).1.length_ = b.length_ ∧
      (basic_mmap.move_construct b).1.mapped_length_ = b.mapped_length_ ∧
      (basic_mmap.move_construct b).1.file_handle_ = b.file_handle_ ∧
      (basic_mmap.move_construct b).1.file_mapping_handle_ = b.file_mapping_handle_ ∧
      ∀ i, (basic_mmap.move_construct b).1.index os i = b.index os i) ∧
    ((mmap_source.move_assign os a b).other.is_open = false ∧
      (mmap_source.move_assign os a b).other.data_ = 0 ∧
      (mmap_source.move_assign os a b).other.length_ = 0 ∧
      (mmap_source.move_assign os a b).other.mapped_length_ = 0 ∧
      (mmap_source.move_assign os a b).other.file_handle_ = invalid_handle ∧
      (mmap_source.move_assign os a b).other.file_mapping_handle_ = invalid_handle ∧
      (mmap_source.move_assign os a b).self.data_ = b.data_ ∧
      (mmap_source.move_assign os a b).self.length_ = b.length_ ∧
      (mmap_source.move_assign os a b).self.mapped_length_ = b.mapped_length_ ∧
      (mmap_source.move_assign os a b).self.file_handle_ = b.file_handle_ ∧
      (mmap_source.move_assign os a b).self.file_mapping_handle_ = b.file_mapping_handle_ ∧
      (∀ i, (mmap_source.move_assign os a b).self.element i = b.element i) ∧
      ((∀ v ∈ os.views, v.base = a.get_mapping_start →
          ∀ i, i < b.length → v.covers (b.element i) = false) →
        ∀ i, i < b.length →
          (mmap_source.move_assign os a b).self.index (mmap_source.move_assign os a b).os i
            = b.index os i)) := by
  have hclosed : basic_mmap.is_open ⟨0, 0, 0, invalid_handle, invalid_handle⟩ = false := by
    decide
  refine ⟨⟨hclosed, rfl, rfl, rfl, rfl, rfl, rfl, rfl, rfl, rfl, rfl, fun i => rfl⟩,
    hclosed, rfl, rfl, rfl, rfl, rfl, rfl, rfl, rfl, rfl, rfl, fun i => rfl, ?_⟩
  intro hapart i hi
  have hel : (mmap_source.move_assign os a b).self.element i = b.element i := rfl
  have hos : (mmap_source.move_assign os a b).os = (mmap_source.unmap os a).2 := rfl
  unfold basic_mmap.index OsState.read
  rw [hel, hos, unmap_files, unmap_views]
  by_cases hopen : a.is_open = true ∧ a.is_mapped = true
  · rw [if_pos hopen, find_filter]
    intro v hv hcov
    simp only [bne_iff_ne, ne_eq]
    intro hbase
    have := hapart v hv hbase i hi
    rw [this] at hcov
    exact absurd hcov (by decide)
  · rw [if_neg hopen]

/-- C6, at a concrete input: a region holding bytes 3 to 6 of `f` is move-assigned a region
holding bytes 0 to 4; afterwards it reads the byte the source read. -/
theorem move_transfer_witness :
    (mmap_source.move_assign sample_second.os sample_mapped.region
        sample_second.region).other.is_open = false ∧
    (mmap_source.move_assign sample_second.os sample_mapped.region
        sample_second.region).self.index
      (mmap_source.move_assign sample_second.os sample_mapped.region
        sample_second.region).os 1 = sample_second.region.index sample_second.os 1 ∧
    sample_second.region.index sample_second.os 1 = some 101 :=
  ⟨(move_transfer sample_second.os sample_mapped.region sample_second.region).2.1,
   (move_transfer sample_second.os sample_mapped.region sample_second.region).2.2.2.2.2.2.2.2.2.2.2.2.2
      (by decide) 1 (by decide),
   by decide⟩

/-! ## C7: move assignment releases what the destination held -/

/-- C7.  Move assignment releases the destination's old mapping: for every open `mmap_source`
`a` that owns the view `v` (mapped, and based at the mapping start of `a`), the mapping handle
`m` and the file handle `f`, and every other region `b` (whose view and handles are not those
of `a`), after `a = move(b)` the view `v` is unmapped and `m` and `f` are closed, while the
view and the handles `b` held are still mapped and open, and are held by `a` only: `a` has the
members of `b` and `b` is closed. -/
theorem move_assign_releases (os : OsState) (a b : basic_mmap) (v : View)
    (hopen : a.is_open = true) (hmapped : a.is_mapped = true)
    (_hv : v ∈ os.views) (hbase : v.base = a.get_mapping_start)
    (hstart : b.get_mapping_start ≠ a.get_mapping_start)
    (hff : b.file_handle_ ≠ a.file_handle_)
    (hfm : b.file_handle_ ≠ a.file_mapping_handle_)
    (hmf : b.file_mapping_handle_ ≠ a.file_handle_)
    (hmm : b.file_mapping_handle_ ≠ a.file_mapping_handle_) :
    v ∉ (mmap_source.move_assign os a b).os.views ∧
    (∀ w ∈ (mmap_source.move_assign os a b).os.views, w.base ≠ a.get_mapping_start) ∧
    (mmap_source.move_assign os a b).os.object a.file_mapping_handle_ = none ∧
    (mmap_source.move_assign os a b).os.object a.file_handle_ = none ∧
    (∀ w ∈ os.views, w.base = b.get_mapping_start →
      w ∈ (mmap_source.move_assign os a b).os.views) ∧
    (mmap_source.move_assign os a b).os.object b.file_handle_ = os.object b.file_handle_ ∧
    (mmap_source.move_assign os a b).os.object b.file_mapping_handle_
      = os.object b.file_mapping_handle_ ∧
    (mmap_source.move_assign os a b).self = b ∧
    (mmap_source.move_assign os a b).other = basic_mmap.default := by
  have hos : (mmap_source.move_assign os a b).os = (mmap_source.unmap os a).2 := rfl
  have hviews : (mmap_source.move_assign os a b).os.views
      = os.views.filter (fun w => w.base != a.get_mapping_start) := by
    rw [hos, unmap_views, if_pos ⟨hopen, hmapped⟩]
  obtain ⟨hcf, hcm⟩ := unmap_object_closed os a hopen hmapped
  refine ⟨?_, ?_, ?_, ?_, ?_, ?_, ?_, rfl, rfl⟩
  · rw [hviews, List.mem_filter]
    intro hmem
    simp [hbase] at hmem
  · intro w hw
    rw [hviews, List.mem_filter] at hw
    simpa using hw.2
  · rw [hos]
    exact hcm
  · rw [hos]
    exact hcf
  · intro w hw hwb
    rw [hviews, List.mem_filter]
    refine ⟨hw, ?_⟩
    simp only [bne_iff_ne, ne_eq, hwb]
    exact hstart
  · rw [hos]
    exact unmap_object_other os a _ hff hfm
  · rw [hos]
    exact unmap_object_other os a _ hmf hmm

/-- C7, at a concrete input: the region holding bytes 3 to 6 of `f` (view at 262144, handles
8 and 12) is move-assigned the region holding bytes 0 to 4 (view at 524288, handles 24 and
28). -/
theorem move_assign_releases_witness :
    sample_second.os.views
      = [⟨524288, "f", 0, 5⟩, ⟨262144, "f", 0, 7⟩] ∧
    (mmap_source.move_assign sample_second.os sample_mapped.region sample_second.region).os.views
      = [⟨524288, "f", 0, 5⟩] ∧
    (⟨262144, "f", 0, 7⟩ : View)
      ∉ (mmap_source.move_assign sample_second.os sample_mapped.region
          sample_second.region).os.views ∧
    (mmap_source.move_assign sample_second.os sample_mapped.region
        sample_second.region).os.open_handles = [28, 24] :=
  ⟨by decide, by decide,
   (move_assign_releases sample_second.os sample_mapped.region sample_second.region
      ⟨262144, "f", 0, 7⟩ (by decide) (by decide) (by decide) (by decide) (by decide)
      (by decide) (by decide) (by decide) (by decide)).1,
   by decide⟩

/-! ## C8: `unmap` is idempotent -/

/-- A region that is not open has all five members at their defaults. -/
theorem reachable_closed (r : basic_mmap) (hr : Reachable r) (hc : r.is_open = false) :
    r = basic_mmap.default := by
  induction hr with
  | default => rfl
  | map k os r path offset length _ ih =>
    rcases map_cases k os r path offset length with
      ⟨e, os1, hmap, -⟩ | ⟨F, h, m, size, base, vlen, os3, hmap, -, -, hfresh, -⟩
    · rw [hmap] at hc ⊢
      exact ih hc
    · obtain ⟨-, hinv, -, -⟩ := fresh_spec os h hfresh
      rw [hmap] at hc
      simp [basic_mmap.is_open, hinv] at hc
  | unmap os r _ ih =>
    by_cases ho : r.is_open = true
    · exact unmap_region os r ho
    · have ho2 : r.is_open = false := by simpa using ho
      rw [unmap_closed os r ho2] at hc ⊢
      exact ih hc
  | move_construct_new b _ ih => exact ih hc
  | move_construct_other b _ _ => rfl
  | move_assign_self os a b _ _ _ ihb => exact ihb hc
  | move_assign_other os a b _ _ _ _ => rfl
  | swap_self a b _ _ _ ihb => exact ihb hc
  | swap_other a b _ _ iha _ => exact iha hc

/-- C8.  `unmap` is idempotent and yields the closed state: for every `mmap_source` state
produced by default construction, `map`, a move or `unmap` (or `swap`), after `unmap()` the
region has data null, length 0, mapped length 0 and both handles invalid, and a second
consecutive `unmap()` makes no system call (the call log does not grow) and leaves the region
and the system exactly as the first call left them. -/
theorem unmap_idempotent (r : basic_mmap) (hr : Reachable r) (os : OsState) :
    (mmap_source.unmap os r).1.data_ = 0 ∧
    (mmap_source.unmap os r).1.length_ = 0 ∧
    (mmap_source.unmap os r).1.mapped_length_ = 0 ∧
    (mmap_source.unmap os r).1.file_handle_ = invalid_handle ∧
    (mmap_source.unmap os r).1.file_mapping_handle_ = invalid_handle ∧
    mmap_source.unmap (mmap_source.unmap os r).2 (mmap_source.unmap os r).1
      = mmap_source.unmap os r ∧
    (mmap_source.unmap (mmap_source.unmap os r).2 (mmap_source.unmap os r).1).2.log
      = (mmap_source.unmap os r).2.log := by
  have hdef : (mmap_source.unmap os r).1 = basic_mmap.default := by
    by_cases ho : r.is_open = true
    · exact unmap_region os r ho
    · have ho2 : r.is_open = false := by simpa using ho
      rw [unmap_closed os r ho2]
      exact reachable_closed r hr ho2
  have hclosed : (mmap_source.unmap os r).1.is_open = false := by
    rw [hdef]
    decide
  have hsecond := unmap_closed (mmap_source.unmap os r).2 (mmap_source.unmap os r).1 hclosed
  refine ⟨?_, ?_, ?_, ?_, ?_, hsecond, ?_⟩
  · rw [hdef]; rfl
  · rw [hdef]; rfl
  · rw [hdef]; rfl
  · rw [hdef]; rfl
  · rw [hdef]; rfl
  · rw [hsecond]

/-- C8, at a concrete input: the region holding bytes 3 to 6 of `f` is unmapped twice. -/
theorem unmap_idempotent_witness :
    (mmap_source.unmap sample_mapped.os sample_mapped.region).1.data_ = 0 ∧
    mmap_source.unmap (mmap_source.unmap sample_mapped.os sample_mapped.region).2
        (mmap_source.unmap sample_mapped.os sample_mapped.region).1
      = mmap_source.unmap sample_mapped.os sample_mapped.region ∧
    (mmap_source.unmap sample_mapped.os sample_mapped.region).2.open_handles = [] :=
  ⟨(unmap_idempotent sample_mapped.region
      (Reachable.map sample_kernel sample_os basic_mmap.default "f" 3 4 Reachable.default)
      sample_mapped.os).1,
   (unmap_idempotent sample_mapped.region
      (Reachable.map sample_kernel sample_os basic_mmap.default "f" 3 4 Reachable.default)
      sample_mapped.os).2.2.2.2.2.1,
   by decide⟩

/-! ## C9: `sync` -/

theorem FlushViewOfFile_last_error (k : Kernel) (os : OsState) (addr bytes : Nat)
    (h : (FlushViewOfFile k os addr bytes).1 = false) :
    (FlushViewOfFile k os addr bytes).2.last_error ≠ 0 := by
  unfold FlushViewOfFile at h ⊢
  split
  · rename_i hn
    simp [hn] at h
  · exact Failure.code_ne_zero _

theorem FlushFileBuffers_last_error (k : Kernel) (os : OsState) (h : Nat)
    (hf : (FlushFileBuffers k os h).1 = false) :
    (FlushFileBuffers k os h).2.last_error ≠ 0 := by
  unfold FlushFileBuffers at hf ⊢
  split
  · rename_i hn
    simp [hn] at hf
  · exact Failure.code_ne_zero _

/-- C9.  `sync` of an `mmap_sink`.  On a region whose `is_open()` is false, `sync(error)` sets
`error` to `std::errc::bad_file_descriptor` and makes no system call, so no flush (the system,
its call log included, is as before).  On an open region, `error` is left empty exactly when
every flush the backend performs succeeds: `FlushViewOfFile` on the mapped view (from the
mapping start, for the mapped length) and `FlushFileBuffers` on the file handle, which the
code calls once more after the pair (for a null `data()` only that last call is made); and
otherwise `error` is the system's last error, in the system category. -/
theorem sync_spec (k : Kernel) (os : OsState) (r : basic_mmap) :
    (r.is_open = false →
      mmap_sink.sync k os r = (make_error_code errc.bad_file_descriptor, os)) ∧
    (r.is_open = true → r.data ≠ 0 →
      ((mmap_sink.sync k os r).1.failed = false ↔
        (FlushViewOfFile k os r.get_mapping_start r.mapped_length_).1 = true ∧
        (FlushFileBuffers k (FlushViewOfFile k os r.get_mapping_start r.mapped_length_).2
          r.file_handle_).1 = true ∧
        (FlushFileBuffers k
          (FlushFileBuffers k (FlushViewOfFile k os r.get_mapping_start r.mapped_length_).2
            r.file_handle_).2 r.file_handle_).1 = true)) ∧
    (r.is_open = true → r.data = 0 →
      ((mmap_sink.sync k os r).1.failed = false ↔
        (FlushFileBuffers k os r.file_handle_).1 = true)) ∧
    (r.is_open = true → (mmap_sink.sync k os r).1.failed = true →
      (mmap_sink.sync k os r).1 = last_error (mmap_sink.sync k os r).2 ∧
      (mmap_sink.sync k os r).1.category = error_category.system ∧
      (mmap_sink.sync k os r).1.value = GetLastError (mmap_sink.sync k os r).2) := by
  have hclear : error_code.clear.failed = false := by decide
  refine ⟨?_, ?_, ?_, ?_⟩
  · intro hc
    unfold mmap_sink.sync
    simp [hc]
  · intro ho hd
    unfold mmap_sink.sync
    simp only [ho, Bool.not_true, Bool.false_eq_true, if_false, hd, ne_eq, not_false_eq_true,
      if_true]
    cases hv : (FlushViewOfFile k os r.get_mapping_start r.mapped_length_).1 with
    | false =>
      have := last_error_failed _ (FlushViewOfFile_last_error k os _ _ hv)
      simp [this]
    | true =>
      simp only [Bool.true_eq_false, if_false, true_and]
      cases hb : (FlushFileBuffers k
          (FlushViewOfFile k os r.get_mapping_start r.mapped_length_).2 r.file_handle_).1 with
      | false =>
        have := last_error_failed _ (FlushFileBuffers_last_error k _ _ hb)
        simp [this]
      | true =>
        simp only [Bool.true_eq_false, if_false, true_and]
        cases hc : (FlushFileBuffers k (FlushFileBuffers k
            (FlushViewOfFile k os r.get_mapping_start r.mapped_length_).2 r.file_handle_).2
            r.file_handle_).1 with
        | false =>
          have := last_error_failed _ (FlushFileBuffers_last_error k _ _ hc)
          simp [this]
        | true => simp [hclear]
  · intro ho hd
    unfold mmap_sink.sync
    simp only [ho, Bool.not_true, Bool.false_eq_true, if_false, hd, ne_eq, not_true_eq_false]
    cases hc : (FlushFileBuffers k os r.file_handle_).1 with
    | false =>
      have := last_error_failed _ (FlushFileBuffers_last_error k _ _ hc)
      simp [this]
    | true => simp [hclear]
  · intro ho
    unfold mmap_sink.sync
    simp only [ho, Bool.not_true, Bool.false_eq_true, if_false]
    have hnc : ¬ (error_code.clear.failed = true) := by decide
    split_ifs <;> intro hf <;>
      first
        | exact absurd hf hnc
        | exact ⟨rfl, rfl, rfl⟩

/-- C9, at concrete inputs: `sync` on a default-constructed region reports
`bad_file_descriptor` and leaves the system alone; on the open sample region it reports no
error when every flush succeeds, and the system error 5 when `FlushFileBuffers` fails. -/
theorem sync_spec_witness :
    mmap_sink.sync sample_kernel sample_os basic_mmap.default
      = (make_error_code errc.bad_file_descriptor, sample_os) ∧
    (mmap_sink.sync sample_kernel sample_mapped.os sample_mapped.region).1.failed = false ∧
    (mmap_sink.sync flush_failing_kernel sample_mapped.os sample_mapped.region).1
      = ⟨5, error_category.system⟩ :=
  ⟨(sync_spec sample_kernel sample_os basic_mmap.default).1 (by decide),
   ((sync_spec sample_kernel sample_mapped.os sample_mapped.region).2.1 (by decide)
      (by decide)).2 (by decide),
   ((sync_spec flush_failing_kernel sample_mapped.os sample_mapped.region).2.2.2 (by decide)
      (by decide)).1.trans (by decide)⟩

/-! ## C3: the range check of `map` -/

/-- C3, evaluated where the code departs from it.  The file `f` has 12 bytes; the request
`map("f", 1, 2^64 - 1)` has the true sum `offset + length = 2^64 > 12`.  The check of `map`
computes the sum in `size_t`, where it wraps to `0`, so the request passes: the mapping object
is created with maximum size `0:0` and the view with `0` bytes (both mean "all of it"), `map`
reports no error, and the region claims `2^64 - 1` bytes over a view of 12. -/
theorem map_range_check_wraps :
    1 + 18446744073709551615 > [72, 101, 108, 108, 111, 44, 109, 109, 97, 112, 33, 33].length ∧
    (1 + 18446744073709551615) % 18446744073709551616 = 0 ∧
    (mmap_source.map sample_kernel sample_os basic_mmap.default "f" 1
        18446744073709551615).error = error_code.clear ∧
    (mmap_source.map sample_kernel sample_os basic_mmap.default "f" 1
        18446744073709551615).error ≠ make_error_code errc.invalid_argument ∧
    (mmap_source.map sample_kernel sample_os basic_mmap.default "f" 1
        18446744073709551615).region
      = ⟨262145, 18446744073709551615, 0, 8, 12⟩ ∧
    (mmap_source.map sample_kernel sample_os basic_mmap.default "f" 1
        18446744073709551615).os.views = [⟨262144, "f", 0, 12⟩] ∧
    (mmap_source.map sample_kernel sample_os basic_mmap.default "f" 1
        18446744073709551615).os.log
      = [Call.file_size "f" true, Call.CreateFileW "f" 8, Call.CreateFileMappingW 8 0 0 12,
         Call.MapViewOfFile 12 0 0 0 262144] := by
  decide

/-! ## C4: handles on the failure paths of `map` -/

/-- C4, evaluated where the code departs from it.  Nothing is open in the sample system.
`map("f", 0, 13)` on the 12-byte file fails the range check after `open_file` has opened the
file, and returns without closing it: handle 8 stays open.  When `MapViewOfFile` fails,
`memory_map` closes the mapping object (handle 12) it created, but `map` again returns with
the file handle 8 open. -/
theorem map_failure_leaks_file_handle :
    sample_os.open_handles = [] ∧
    (mmap_source.map sample_kernel sample_os basic_mmap.default "f" 0 13).error
      = make_error_code errc.invalid_argument ∧
    (mmap_source.map sample_kernel sample_os basic_mmap.default "f" 0 13).region
      = basic_mmap.default ∧
    (mmap_source.map sample_kernel sample_os basic_mmap.default "f" 0 13).os.open_handles
      = [8] ∧
    (mmap_source.map sample_kernel sample_os basic_mmap.default "f" 0 13).os.log
      = [Call.file_size "f" true, Call.CreateFileW "f" 8] ∧
    (mmap_source.map view_failing_kernel sample_os basic_mmap.default "f" 0 12).error
      = ⟨5, error_category.system⟩ ∧
    (mmap_source.map view_failing_kernel sample_os basic_mmap.default "f" 0 12).os.open_handles
      = [8] ∧
    (mmap_source.map view_failing_kernel sample_os basic_mmap.default "f" 0 12).os.log
      = [Call.file_size "f" true, Call.CreateFileW "f" 8, Call.CreateFileMappingW 8 0 12 12,
         Call.MapViewOfFile 12 0 0 12 0, Call.CloseHandle 12 true] := by
  decide

/-! ## Pointers into a view, and the call log -/

theorem data_pointer_mod (k : Kernel) (base offset : Nat) :
    size_t ((base : Int) + int64_t offset
        - int64_t (make_offset_page_aligned k (size_t (int64_t offset))))
      = (base + (offset % 18446744073709551616) % k.dwAllocationGranularity)
          % 18446744073709551616 := by
  have h1 : size_t (int64_t offset) = offset % 18446744073709551616 := by
    rw [size_t_int64_t, size_t_natCast_mod]
  rw [h1]
  have hlt : offset % 18446744073709551616 < 18446744073709551616 :=
    Nat.mod_lt _ (by decide)
  have h2 := aligned_add_mod k (offset % 18446744073709551616) hlt
  have ho : (offset : Int) % 18446744073709551616
      = ((offset % 18446744073709551616 : Nat) : Int) % 18446744073709551616 := by
    omega
  have key : ((base : Int) + int64_t offset
        - int64_t (make_offset_page_aligned k (offset % 18446744073709551616)))
        % 18446744073709551616
      = (((base + (offset % 18446744073709551616) % k.dwAllocationGranularity : Nat) : Int))
          % 18446744073709551616 := by
    have e : ((base + (offset % 18446744073709551616) % k.dwAllocationGranularity : Nat) : Int)
        = (base : Int) + ((offset % 18446744073709551616 : Nat) : Int)
          - (make_offset_page_aligned k (offset % 18446744073709551616) : Nat) := by
      omega
    rw [e, Int.sub_emod, Int.add_emod, int64_t_emod, int64_t_emod, ho,
      Int.sub_emod ((base : Int) + ((offset % 18446744073709551616 : Nat) : Int)),
      Int.add_emod (base : Int)]
  rw [size_t_congr _ _ key]
  exact size_t_natCast_mod _

theorem CloseHandle_log_mem (os : OsState) (h : Nat) (c : Call) (hc : c ∈ os.log) :
    c ∈ (CloseHandle os h).2.log := by
  unfold CloseHandle
  split
  · exact List.mem_append_left _ hc
  · exact List.mem_append_left _ hc

theorem unmap_log_mem (os : OsState) (r : basic_mmap) (c : Call) (hc : c ∈ os.log) :
    c ∈ (mmap_source.unmap os r).2.log := by
  unfold mmap_source.unmap
  by_cases ho : r.is_open = true
  · by_cases hm : r.is_mapped = true
    · simp only [ho, hm, Bool.not_true, Bool.false_eq_true, if_false, if_true]
      apply CloseHandle_log_mem
      apply CloseHandle_log_mem
      exact List.mem_append_left _ hc
    · simp only [ho, hm, Bool.not_true, Bool.false_eq_true, if_false]
      apply CloseHandle_log_mem
      exact hc
  · simp only [ho, Bool.not_false, if_true]
    simpa using hc

/-! ## C11: the sub-window of a mapping -/

/-- The sub-window invariant for a request inside the file: with `G > 0` and
`offset + length ≤ S`, a successful `map` leaves `mapped_length() ≥ length()` and
`mapping_offset() = mapped_length() - length() = offset - aligned_offset`; the system was
asked, in the logged `MapViewOfFile` call, for `mapped_length()` bytes at the aligned offset
and returned `base`; and `get_mapping_start()` is that `base`, `data()` lying
`offset - aligned_offset` above it, when this pointer does not wrap around the address
space. -/
theorem map_sub_window (k : Kernel) (os : OsState) (r : basic_mmap) (path : String)
    (offset length : Nat) (F : List Nat)
    (_hG : 0 < k.dwAllocationGranularity)
    (hF : os.files.lookup path = some F) (hS : F.length < 18446744073709551616)
    (hrange : offset + length ≤ F.length)
    (hok : (mmap_source.map k os r path offset length).error.failed = false) :
    ∃ m base,
      Call.MapViewOfFile m (int64_high (int64_t (make_offset_page_aligned k offset)))
        (int64_low (int64_t (make_offset_page_aligned k offset)))
        (mmap_source.map k os r path offset length).region.mapped_length base
        ∈ (mmap_source.map k os r path offset length).os.log ∧
      base ≠ 0 ∧
      (mmap_source.map k os r path offset length).region.length
        ≤ (mmap_source.map k os r path offset length).region.mapped_length ∧
      (mmap_source.map k os r path offset length).region.mapping_offset
        = (mmap_source.map k os r path offset length).region.mapped_length
          - (mmap_source.map k os r path offset length).region.length ∧
      (mmap_source.map k os r path offset length).region.mapping_offset
        = offset - make_offset_page_aligned k offset ∧
      (base + (offset - make_offset_page_aligned k offset) < 18446744073709551616 →
        (mmap_source.map k os r path offset length).region.data
          = base + (offset - make_offset_page_aligned k offset) ∧
        (mmap_source.map k os r path offset length).region.get_mapping_start = base) := by
  rcases map_cases k os r path offset length with
    ⟨e, os1, hmap, he, -⟩ |
    ⟨F2, h, m, size, base, vlen, os3, hmap, hF2, -, -, -, -, hvac, -, -, -, -, -, hlg⟩
  · rw [hmap] at hok
    change e.failed = false at hok
    rw [he] at hok
    exact absurd hok (by decide)
  · rw [hF] at hF2
    injection hF2 with hF2
    subst hF2
    rw [Nat.mod_eq_of_lt hS] at hmap hlg
    have hle := memory_map_length_le F.length offset length hS hrange
    have hoff : offset < 18446744073709551616 := by omega
    have hmodle : offset % k.dwAllocationGranularity ≤ offset := Nat.mod_le _ _
    have hsplit := aligned_add_mod k offset hoff
    have hsub : offset - make_offset_page_aligned k offset
        = offset % k.dwAllocationGranularity := by omega
    have hbytes := length_to_map_eq k offset (memory_map_length F.length offset length) hoff
      (by omega)
    have hlen : size_t (int64_t ((memory_map_length F.length offset length : Nat) : Int))
        = memory_map_length F.length offset length := by
      rw [size_t_int64_t]
      exact size_t_natCast _ (by omega)
    have hdata := data_pointer_mod k base offset
    rw [Nat.mod_eq_of_lt hoff] at hdata
    have h1 : size_t (int64_t offset) = offset := by
      rw [size_t_int64_t, size_t_natCast offset hoff]
    rw [hbytes, hlen, hdata] at hmap
    rw [hbytes, h1] at hlg
    obtain ⟨hb0, -, -⟩ := vacant_spec os base vlen hvac
    have hR : (mmap_source.map k os r path offset length).region
        = ⟨(base + offset % k.dwAllocationGranularity) % 18446744073709551616,
            memory_map_length F.length offset length,
            offset % k.dwAllocationGranularity + memory_map_length F.length offset length,
            h, m⟩ := by
      rw [hmap]
    have hO : (mmap_source.map k os r path offset length).os = (mmap_source.unmap os3 r).2 := by
      rw [hmap]
    have hmo : (mmap_source.map k os r path offset length).region.mapping_offset
        = offset % k.dwAllocationGranularity := by
      rw [hR]
      unfold basic_mmap.mapping_offset
      dsimp only
      have : ((offset % k.dwAllocationGranularity + memory_map_length F.length offset length
          : Nat) : Int) - ((memory_map_length F.length offset length : Nat) : Int)
          = ((offset % k.dwAllocationGranularity : Nat) : Int) := by
        omega
      rw [this]
      exact size_t_natCast _ (by omega)
    refine ⟨m, base, ?_, hb0, ?_, ?_, ?_, ?_⟩
    · rw [hO]
      apply unmap_log_mem
      rw [hR]
      exact hlg
    · rw [hR]
      exact Nat.le_add_left _ _
    · rw [hmo, hR]
      simp only [basic_mmap.mapped_length, basic_mmap.length]
      omega
    · rw [hmo, hsub]
    · intro hnw
      rw [hsub] at hnw ⊢
      have hd : (mmap_source.map k os r path offset length).region.data
          = base + offset % k.dwAllocationGranularity := by
        rw [hR]
        exact Nat.mod_eq_of_lt hnw
      refine ⟨hd, ?_⟩
      unfold basic_mmap.get_mapping_start
      rw [hmo, hd]
      have hne : ¬ (base + offset % k.dwAllocationGranularity = 0) := by omega
      rw [if_neg hne]
      have : ((base + offset % k.dwAllocationGranularity : Nat) : Int)
          - ((offset % k.dwAllocationGranularity : Nat) : Int) = ((base : Nat) : Int) := by
        omega
      rw [this]
      exact size_t_natCast _ (by omega)

/-- C11, evaluated where the code departs from it.  The request `map("f", 1, 2^64 - 1)` on
the 12-byte file `f` passes the range check of `map` because the sum wraps (the defect shown
for C3), so it is a successful `map`.  `memory_map` computes `length_to_map = 1 - 0 + (-1) = 0`
and the region ends with `mapped_length() = 0` and `length() = 2^64 - 1`:
`mapped_length() ≥ length()` does not hold, and `mapping_offset()` is `1` only because the
subtraction `0 - (2^64 - 1)` wraps. -/
theorem map_sub_window_wraps :
    (mmap_source.map sample_kernel sample_os basic_mmap.default "f" 1
        18446744073709551615).error.failed = false ∧
    (mmap_source.map sample_kernel sample_os basic_mmap.default "f" 1
        18446744073709551615).region.is_open = true ∧
    (mmap_source.map sample_kernel sample_os basic_mmap.default "f" 1
        18446744073709551615).region.mapped_length = 0 ∧
    (mmap_source.map sample_kernel sample_os basic_mmap.default "f" 1
        18446744073709551615).region.length = 18446744073709551615 ∧
    ¬ ((mmap_source.map sample_kernel sample_os basic_mmap.default "f" 1
          18446744073709551615).region.mapped_length
        ≥ (mmap_source.map sample_kernel sample_os basic_mmap.default "f" 1
          18446744073709551615).region.length) ∧
    (mmap_source.map sample_kernel sample_os basic_mmap.default "f" 1
        18446744073709551615).region.mapping_offset = 1 ∧
    (mmap_source.map sample_kernel sample_os basic_mmap.default "f" 1
        18446744073709551615).region.get_mapping_start = 262144 := by
  decide

/-! ## C12: the data pointer is null exactly when the region is closed -/

/-- The invariant of the reachable states: a region that is not open has all five members at
their defaults, and an open region has a non-null data pointer. -/
theorem reachable_user_inv (r : basic_mmap) (hr : ReachableUser r) :
    (r.is_open = false → r = basic_mmap.default) ∧ (r.is_open = true → r.data_ ≠ 0) := by
  induction hr with
  | default =>
    refine ⟨fun _ => rfl, fun h => ?_⟩
    exact absurd h (by decide)
  | map k os r path offset length _ hG hG32 huser ih =>
    rcases map_cases k os r path offset length with
      ⟨e, os1, hmap, -⟩ |
      ⟨F, h, m, size, base, vlen, os3, hmap, -, -, hfresh, -, -, hvac, -, -, -, -, -, hlg⟩
    · rw [hmap]
      exact ih
    · obtain ⟨-, hinv, -, -⟩ := fresh_spec os h hfresh
      obtain ⟨hb0, -, -⟩ := vacant_spec os base vlen hvac
      have hO : (mmap_source.map k os r path offset length).os
          = (mmap_source.unmap os3 r).2 := by
        rw [hmap]
      rw [hO] at huser
      have hmem := unmap_log_mem os3 r _ hlg
      unfold OsState.user_addresses at huser
      rw [List.all_eq_true] at huser
      have hb := huser _ hmem
      simp only [Call.user_address, decide_eq_true_eq] at hb
      have hmod : (offset % 18446744073709551616) % k.dwAllocationGranularity
          < k.dwAllocationGranularity := Nat.mod_lt _ hG
      have hdata := data_pointer_mod k base offset
      rw [hmap]
      refine ⟨fun hc => ?_, fun _ => ?_⟩
      · simp [basic_mmap.is_open, hinv] at hc
      · dsimp only
        rw [hdata]
        omega
  | unmap os r _ ih =>
    by_cases ho : r.is_open = true
    · rw [unmap_region os r ho]
      refine ⟨fun _ => rfl, fun h => ?_⟩
      exact absurd h (by decide)
    · have ho2 : r.is_open = false := by simpa using ho
      rw [unmap_closed os r ho2]
      exact ih
  | move_construct_new b _ ih => exact ih
  | move_construct_other b _ _ =>
    refine ⟨fun _ => rfl, fun h => ?_⟩
    change basic_mmap.is_open ⟨0, 0, 0, invalid_handle, invalid_handle⟩ = true at h
    exact absurd h (by decide)
  | move_assign_self os a b _ _ _ ihb => exact ihb
  | move_assign_other os a b _ _ _ _ =>
    refine ⟨fun _ => rfl, fun h => ?_⟩
    change basic_mmap.is_open ⟨0, 0, 0, invalid_handle, invalid_handle⟩ = true at h
    exact absurd h (by decide)
  | swap_self a b _ _ _ ihb => exact ihb
  | swap_other a b _ _ iha _ => exact iha

/-- C12.  Closed-state invariant: in every `mmap_source` state reachable from default
construction by `map` calls (successful or failing), `unmap`, move construction, move
assignment and `swap`, `data() == nullptr` holds if and only if the region is closed, that is
`is_open()` is false, that is `file_handle_ == invalid_handle`.  The system is one whose views
are based at non-null user-mode addresses and whose allocation granularity is a positive
32-bit value. -/
theorem closed_iff_data_null (r : basic_mmap) (hr : ReachableUser r) :
    (r.data = 0 ↔ r.is_open = false) ∧
    (r.is_open = false ↔ r.file_handle_ = invalid_handle) := by
  obtain ⟨hclosed, hopen⟩ := reachable_user_inv r hr
  refine ⟨⟨fun hd => ?_, fun hc => ?_⟩, ?_⟩
  · by_cases ho : r.is_open = true
    · exact absurd hd (hopen ho)
    · simpa using ho
  · rw [hclosed hc]
    rfl
  · simp [basic_mmap.is_open]

/-- C12, at concrete inputs: the region holding bytes 3 to 6 of `f` is open with a non-null
data pointer; after `unmap` it is closed with a null one. -/
theorem closed_iff_data_null_witness :
    (sample_mapped.region.data = 0 ↔ sample_mapped.region.is_open = false) ∧
    sample_mapped.region.data = 262147 ∧
    ((mmap_source.unmap sample_mapped.os sample_mapped.region).1.data = 0 ↔
      (mmap_source.unmap sample_mapped.os sample_mapped.region).1.is_open = false) ∧
    (mmap_source.unmap sample_mapped.os sample_mapped.region).1.data = 0 :=
  ⟨(closed_iff_data_null sample_mapped.region
      (ReachableUser.map sample_kernel sample_os basic_mmap.default "f" 3 4
        ReachableUser.default (by decide) (by decide) (by decide))).1,
   by decide,
   (closed_iff_data_null (mmap_source.unmap sample_mapped.os sample_mapped.region).1
      (ReachableUser.unmap sample_mapped.os sample_mapped.region
        (ReachableUser.map sample_kernel sample_os basic_mmap.default "f" 3 4
          ReachableUser.default (by decide) (by decide) (by decide)))).1,
   by decide⟩

end ghassanpl
